import Mathlib

/-!
# Verification of the cemetery plot / reservation / burial-record workflow

Shallow embedding of the state-changing controller operations of the
sementeryo backend (PostgreSQL tables become Lean lists, one SQL statement
becomes one pure transformation, a transaction that rolls back on failure
becomes a function returning the unchanged state on its failure branches).

Sources embedded:
* `controllers/visitor.controller.js`  — reservePlot, cancelReservation,
  uploadReservationReceipt, approveReservationAsAdmin,
  rejectReservationAsAdmin, cancelReservationAsAdmin, acceptPaymentAsAdmin
* `controllers/plot.controller.js`     — reservePlotAsAdmin,
  validatePaymentAsAdmin, approvePaymentAsAdmin, approveReservationAsAdmin
  (suffix `P` distinguishes it from the visitor-controller function of the
  same name; both are mounted)
* `controllers/admin.controller.js` (in `unnamed/part_007`) — plotHasAnyGrave,
  addBurialRecord, editBurialRecord, deleteBurialRecord,
  confirmBurialRequestAsAdmin
* `controllers/burial-records.controller.js` — its own addBurialRecord
  (suffix `B`), which performs no occupancy check.

Elided as external collaborators, following the spec's scope section:
authentication / role middleware (callers are assumed authorized), multer
file handling (a receipt is an asset-reference string), the `hasTable` /
`hasColumn` runtime schema probing (the full schema is assumed present),
uid generation (`ensureGraveUid` is replaced by a fresh numeric id), and
the denormalized person fields sync (`updatePlotPersonFields`), which only
touches descriptive columns. Row ids are Nats; lookup by the alternate
string `uid` key collapses onto the numeric id.
-/

/-- ASCII lower-casing of one character, mirroring what
JavaScript's `toLowerCase` does on the ASCII status strings this
system stores. -/
def lowerChar (c : Char) : Char :=
  if 'A' ≤ c ∧ c ≤ 'Z' then Char.ofNat (c.toNat + 32) else c

/-- Mirrors `String(x).toLowerCase()` on ASCII data. -/
def slower (s : String) : String :=
  String.mk (s.data.map lowerChar)

/-- Mirrors `String(x).trim()` (whitespace modelled as the space character). -/
def strim (s : String) : String :=
  String.mk (((s.data.dropWhile (fun c => c == ' ')).reverse.dropWhile
    (fun c => c == ' ')).reverse)

/-- A row of the `plots` table (`status` is one of
available / reserved / occupied / maintenance). Descriptive columns
(name, price, geometry, …) are not part of any claim and are elided. -/
structure Plot where
  id : Nat
  status : String
deriving Repr, DecidableEq

/-- A row of the `plot_reservations` table. -/
structure Reservation where
  id : Nat
  plot_id : Nat
  user_id : Nat
  status : String
  payment_status : String
  payment_receipt_url : String
deriving Repr, DecidableEq

/-- A row of the `graves` table (a Burial Record). -/
structure Grave where
  id : Nat
  plot_id : Nat
  deceased_name : String
  is_active : Bool
deriving Repr, DecidableEq

/-- A row of the `burial_requests` table. `plot_id` is `none` when the
column is NULL/empty (the code checks `String(br.plot_id || "").trim()`). -/
structure BurialRequest where
  id : Nat
  plot_id : Option Nat
  family_contact : Nat
  deceased_name : String
  status : String
deriving Repr, DecidableEq

/-- A row of the `users` table (only what `reservePlotAsAdmin` reads). -/
structure User where
  id : Nat
  role : String
deriving Repr, DecidableEq

/-- The authoritative data store: the core tables plus the id sequences. -/
structure DB where
  plots : List Plot
  reservations : List Reservation
  graves : List Grave
  requests : List BurialRequest
  users : List User
  nextResId : Nat
  nextGraveId : Nat
deriving Repr, DecidableEq

/-- The typed outcome of one operation (HTTP status collapsed to its class;
the carried string is the response message). -/
inductive Resp where
  | ok (msg : String)
  | created (msg : String)
  | badRequest (msg : String)
  | notFound (msg : String)
  | conflict (msg : String)
deriving Repr, DecidableEq

/-- The `success: true` responses (HTTP 200 / 201). -/
def Resp.isSuccess : Resp → Bool
  | .ok _ => true
  | .created _ => true
  | _ => false

/-- Mirrors `SELECT ... FROM plots WHERE id = $1` (one row or none). -/
def findPlot (db : DB) (pid : Nat) : Option Plot :=
  db.plots.find? (fun p => p.id == pid)

/-- Mirrors `SELECT ... FROM plot_reservations WHERE id = $1`. -/
def findRes (db : DB) (rid : Nat) : Option Reservation :=
  db.reservations.find? (fun r => r.id == rid)

/-- Mirrors `SELECT ... FROM plot_reservations WHERE id = $1 AND user_id = $2`. -/
def findResOfUser (db : DB) (rid uid : Nat) : Option Reservation :=
  db.reservations.find? (fun r => r.id == rid && r.user_id == uid)

/-- Mirrors `SELECT ... FROM graves WHERE id = $1` (uid lookup collapsed onto id). -/
def findGrave (db : DB) (gid : Nat) : Option Grave :=
  db.graves.find? (fun g => g.id == gid)

/-- Mirrors `SELECT * FROM burial_requests WHERE id = $1`. -/
def findRequest (db : DB) (bid : Nat) : Option BurialRequest :=
  db.requests.find? (fun b => b.id == bid)

/-- Mirrors `UPDATE plots SET status = st WHERE id = pid`. -/
def setPlotStatus (db : DB) (pid : Nat) (st : String) : DB :=
  { db with plots := db.plots.map (fun p =>
      if p.id = pid then { p with status := st } else p) }

/-- Mirrors `UPDATE plot_reservations SET ... WHERE id = rid`. -/
def mapRes (db : DB) (rid : Nat) (f : Reservation → Reservation) : DB :=
  { db with reservations := db.reservations.map (fun r =>
      if r.id = rid then f r else r) }

/-- The repeated `["rejected","cancelled","canceled","completed"].includes(s)`
idiom gating terminal reservation states. -/
def isClosedStatus (s : String) : Bool :=
  s == "rejected" || s == "cancelled" || s == "canceled" || s == "completed"

/-- Modelled from the spec: the `plot_reservations` table definition is not
among the sources, so the column default applied when `reservePlot` inserts
without naming `payment_status` is taken from spec section 4.2
(`status=pending, payment_status=unpaid`). -/
def defaultPaymentStatus : String := "unpaid"

/-- Embeds `reservePlot` — visitor.controller.js:730. Pending reservations do NOT
change the plot status ("lock on approve" flow); an occupied or reserved
plot conflicts, as does an existing pending/approved reservation by the
same user on the same plot. -/
def reservePlot (db : DB) (plot_id user_id : Nat) : Resp × DB :=
  match findPlot db plot_id with
  | none => (.notFound "Plot not found", db)
  | some plot =>
    let s := slower plot.status
    if s = "occupied" ∨ s = "reserved" then
      (.conflict ("Plot is locked (" ++ plot.status ++ ")"), db)
    else if db.reservations.any (fun r =>
        r.plot_id == plot_id && r.user_id == user_id &&
        (slower r.status == "pending" || slower r.status == "approved")) then
      (.conflict "You already have an active reservation for this plot.", db)
    else
      let newRes : Reservation :=
        { id := db.nextResId, plot_id := plot_id, user_id := user_id,
          status := "pending", payment_status := defaultPaymentStatus,
          payment_receipt_url := "" }
      (.created "Reservation submitted (pending admin approval)",
        { db with reservations := db.reservations ++ [newRes],
                  nextResId := db.nextResId + 1 })

/-- Embeds `reservePlotAsAdmin` — plot.controller.js:884. Requires an `available`
plot and marks it `reserved` immediately ("lock on create" flow); performs
no duplicate-reservation check. -/
def reservePlotAsAdmin (db : DB) (plot_id visitor_user_id : Nat) : Resp × DB :=
  match db.users.find? (fun u => u.id == visitor_user_id) with
  | none => (.notFound "Visitor user not found", db)
  | some v =>
    if slower v.role ≠ "visitor" then
      (.badRequest "visitor_user_id must be a visitor", db)
    else
      match findPlot db plot_id with
      | none => (.notFound "Plot not found", db)
      | some plot =>
        if slower plot.status ≠ "available" then
          (.conflict ("Plot is currently " ++ plot.status), db)
        else
          let newRes : Reservation :=
            { id := db.nextResId, plot_id := plot_id,
              user_id := visitor_user_id, status := "pending",
              payment_status := "unpaid", payment_receipt_url := "" }
          (.created "reservation created",
            setPlotStatus
              { db with reservations := db.reservations ++ [newRes],
                        nextResId := db.nextResId + 1 }
              plot_id "reserved")

/-- Embeds `cancelReservation` (visitor self-service) — visitor.controller.js:822.
Releases the plot only when it was `reserved` and no other approved
reservation remains. -/
def cancelReservation (db : DB) (id user_id : Nat) : Resp × DB :=
  match findResOfUser db id user_id with
  | none => (.notFound "Reservation not found or access denied", db)
  | some reservation =>
    if slower reservation.status = "cancelled" then
      (.badRequest "Already cancelled", db)
    else
      let db1 := mapRes db id (fun r => { r with status := "cancelled" })
      let plotStatus :=
        slower (((findPlot db1 reservation.plot_id).map Plot.status).getD "")
      if plotStatus = "reserved" then
        let activeCnt := (db1.reservations.filter (fun r =>
          r.plot_id == reservation.plot_id && r.id != id &&
          slower r.status == "approved")).length
        if activeCnt = 0 then
          (.ok "Reservation cancelled",
            setPlotStatus db1 reservation.plot_id "available")
        else (.ok "Reservation cancelled", db1)
      else (.ok "Reservation cancelled", db1)

/-- The precondition phase of `uploadReservationReceipt` —
visitor.controller.js:892. The source runs on `pool.query` with no
transaction and no row lock, so the check and the update are separately
schedulable steps; `none` means every check passed. -/
def uploadReceiptCheck (db : DB) (id user_id : Nat) : Option Resp :=
  match findResOfUser db id user_id with
  | none => some (.notFound "Reservation not found or access denied")
  | some reservation =>
    let status := slower reservation.status
    if isClosedStatus status then
      some (.conflict ("Cannot upload receipt because reservation is "
        ++ status ++ "."))
    else if slower reservation.payment_status = "accepted" then
      some (.conflict
        "Payment is already accepted. Receipt can no longer be changed.")
    else none

/-- The mutation phase of `uploadReservationReceipt`: the unconditional
`UPDATE plot_reservations SET payment_receipt_url, payment_status='submitted'
WHERE id AND user_id` (the previous receipt reference is overwritten). -/
def uploadReceiptApply (db : DB) (id user_id : Nat) (receiptUrl : String) :
    DB :=
  { db with reservations := db.reservations.map (fun r =>
      if r.id = id ∧ r.user_id = user_id then
        { r with payment_receipt_url := receiptUrl,
                 payment_status := "submitted" }
      else r) }

/-- Embeds `uploadReservationReceipt` run without interference: check, then apply. -/
def uploadReservationReceipt (db : DB) (id user_id : Nat)
    (receiptUrl : String) : Resp × DB :=
  match uploadReceiptCheck db id user_id with
  | some e => (e, db)
  | none => (.ok "Receipt uploaded. Waiting for admin approval.",
      uploadReceiptApply db id user_id receiptUrl)

/-- Embeds `approveReservationAsAdmin` — visitor.controller.js:1012. Requires a
receipt and a submitted/accepted payment, conflicts when the plot is
occupied or reserved, approves the reservation, marks the plot reserved,
and rejects every other pending reservation on the same plot. An
already-approved reservation is answered with success and no change. -/
def approveReservationAsAdminV (db : DB) (id : Nat) : Resp × DB :=
  match findRes db id with
  | none => (.notFound "Reservation not found", db)
  | some reservation =>
    let current := slower reservation.status
    if current = "approved" then (.ok "Already approved", db)
    else if isClosedStatus current then
      (.conflict ("Cannot approve a " ++ current ++ " reservation"), db)
    else
      let receiptUrl := strim reservation.payment_receipt_url
      let payStatus := slower reservation.payment_status
      if receiptUrl = "" then
        (.conflict "Cannot approve reservation: no receipt uploaded yet.", db)
      else if payStatus ≠ "" ∧ ¬(payStatus = "submitted" ∨ payStatus = "accepted") then
        (.conflict "Cannot approve reservation: receipt is not submitted/valid yet.", db)
      else
        match findPlot db reservation.plot_id with
        | none => (.notFound "Plot not found", db)
        | some plot =>
          let plotStatus := slower plot.status
          if plotStatus = "occupied" ∨ plotStatus = "reserved" then
            (.conflict ("Cannot approve: plot is locked ("
              ++ plot.status ++ ")."), db)
          else
            let db1 := mapRes db id (fun r => { r with status := "approved" })
            let db2 := setPlotStatus db1 reservation.plot_id "reserved"
            let rejectOther : Reservation → Reservation := fun r =>
              if r.plot_id = reservation.plot_id ∧ r.id ≠ id ∧
                  slower r.status = "pending" then
                { r with status := "rejected" }
              else r
            let db3 := { db2 with reservations := db2.reservations.map rejectOther }
            (.ok "Reservation approved", db3)

/-- Embeds `rejectReservationAsAdmin` — visitor.controller.js:1124. Note: it sets
the plot `available` whenever no other pending/approved reservation
remains, without checking whether the plot is occupied. -/
def rejectReservationAsAdminV (db : DB) (id : Nat) : Resp × DB :=
  match findRes db id with
  | none => (.notFound "Reservation not found", db)
  | some reservation =>
    let current := slower reservation.status
    if current = "rejected" then (.ok "Already rejected", db)
    else if current = "cancelled" ∨ current = "canceled" then
      (.conflict ("Cannot reject a " ++ current ++ " reservation"), db)
    else
      match findPlot db reservation.plot_id with
      | none => (.notFound "Plot not found", db)
      | some _plot =>
        let db1 := mapRes db id (fun r => { r with status := "rejected" })
        let activeCnt := (db1.reservations.filter (fun r =>
          r.plot_id == reservation.plot_id && r.id != id &&
          (slower r.status == "pending" || slower r.status == "approved"))).length
        if activeCnt = 0 then
          (.ok "Reservation rejected",
            setPlotStatus db1 reservation.plot_id "available")
        else (.ok "Reservation rejected", db1)

/-- Embeds `cancelReservationAsAdmin` — visitor.controller.js:1199. Same shape as
the admin reject: any non-cancelled reservation (even a completed one) can
be cancelled, and the plot is set `available` whenever no other
pending/approved reservation remains — again without an occupied check. -/
def cancelReservationAsAdminV (db : DB) (id : Nat) : Resp × DB :=
  match findRes db id with
  | none => (.notFound "Reservation not found", db)
  | some reservation =>
    let current := slower reservation.status
    if current = "cancelled" ∨ current = "canceled" then
      (.ok "Already cancelled", db)
    else
      match findPlot db reservation.plot_id with
      | none => (.notFound "Plot not found", db)
      | some _plot =>
        let db1 := mapRes db id (fun r => { r with status := "cancelled" })
        let activeCnt := (db1.reservations.filter (fun r =>
          r.plot_id == reservation.plot_id && r.id != id &&
          (slower r.status == "pending" || slower r.status == "approved"))).length
        if activeCnt = 0 then
          (.ok "Reservation cancelled",
            setPlotStatus db1 reservation.plot_id "available")
        else (.ok "Reservation cancelled", db1)

/-- Embeds `acceptPaymentAsAdmin` — visitor.controller.js:1266. A single
unconditional UPDATE: no receipt check, no status check; writes
`payment_status = 'accepted'`. -/
def acceptPaymentAsAdmin (db : DB) (id : Nat) : Resp × DB :=
  match findRes db id with
  | none => (.notFound "Reservation not found", db)
  | some _ =>
    (.ok "Payment accepted",
      mapRes db id (fun r => { r with payment_status := "accepted" }))

/-- Embeds `validatePaymentAsAdmin` — plot.controller.js:986. Runs on `pool.query`
without a transaction or lock. Requires a non-terminal reservation and a
stored receipt; writes `payment_status = 'validated'`. -/
def validatePaymentAsAdmin (db : DB) (id : Nat) : Resp × DB :=
  match findRes db id with
  | none => (.notFound "Reservation not found", db)
  | some row =>
    let status := slower row.status
    if isClosedStatus status then
      (.conflict ("Cannot validate payment: reservation is " ++ status ++ "."), db)
    else if strim row.payment_receipt_url = "" then
      (.conflict "Cannot validate payment: no receipt uploaded.", db)
    else
      (.ok "Payment validated",
        mapRes db id (fun r => { r with payment_status := "validated" }))

/-- Embeds `approvePaymentAsAdmin` — plot.controller.js:1045. Requires a
non-terminal reservation and a stored receipt. The
`payment_status ∈ (validated | submitted)` guard present in the source is
commented out, so no payment-status check is performed; writes
`payment_status = 'approved'`. -/
def approvePaymentAsAdmin (db : DB) (id : Nat) : Resp × DB :=
  match findRes db id with
  | none => (.notFound "Reservation not found", db)
  | some row =>
    let status := slower row.status
    if isClosedStatus status then
      (.conflict ("Cannot approve payment: reservation is " ++ status ++ "."), db)
    else if strim row.payment_receipt_url = "" then
      (.conflict "Cannot approve payment: no receipt uploaded.", db)
    else
      (.ok "Payment approved",
        mapRes db id (fun r => { r with payment_status := "approved" }))

/-- Embeds `approveReservationAsAdmin` — plot.controller.js:1258. Requires a
pending reservation, a receipt, `payment_status = 'validated'`, a
non-occupied plot, and no other active reservation (matched with exact
case, as in the source); approves reservation and payment together and
marks the plot reserved. It does NOT reject other pending reservations —
it fails instead. -/
def approveReservationAsAdminP (db : DB) (id : Nat) : Resp × DB :=
  match findRes db id with
  | none => (.notFound "Reservation not found", db)
  | some reservation =>
    if slower reservation.status ≠ "pending" then
      (.conflict ("Reservation is already " ++ reservation.status), db)
    else if strim reservation.payment_receipt_url = "" then
      (.badRequest "No payment receipt found. Visitor must upload receipt first.", db)
    else if slower reservation.payment_status ≠ "validated" then
      (.conflict "Payment must be validated first.", db)
    else
      match findPlot db reservation.plot_id with
      | none => (.notFound "Plot not found", db)
      | some plot =>
        if slower plot.status = "occupied" then
          (.conflict "Plot is already occupied", db)
        else if db.reservations.any (fun r =>
            r.plot_id == reservation.plot_id && r.id != id &&
            (r.status == "pending" || r.status == "approved")) then
          (.conflict "Another active reservation exists for this plot. Resolve it first.", db)
        else
          let db1 := mapRes db id (fun r =>
            { r with status := "approved", payment_status := "approved" })
          (.ok "approved", setPlotStatus db1 reservation.plot_id "reserved")

/-- Embeds `plotHasAnyGrave` — admin.controller.js (part_007:740).
`SELECT COUNT(*) FROM graves WHERE plot_id = $1` — counts every grave,
active or not. -/
def plotHasAnyGrave (graves : List Grave) (plotId : Nat) : Bool :=
  0 < (graves.filter (fun g => g.plot_id == plotId)).length

/-- Embeds `addBurialRecord` — admin.controller.js (part_007:817). Locks the plot,
conflicts when it is already occupied, inserts the grave (with the caller's
`is_active`, defaulting to true at the HTTP layer) and sets the plot
occupied. -/
def addBurialRecordA (db : DB) (plot_id : Nat) (deceased_name : String)
    (is_active : Bool) : Resp × DB :=
  if strim deceased_name = "" then
    (.badRequest "plot_id and deceased_name are required", db)
  else
    match findPlot db plot_id with
    | none => (.notFound "Plot not found", db)
    | some plot =>
      if slower plot.status = "occupied" then
        (.conflict "Plot is already occupied", db)
      else
        let g : Grave :=
          { id := db.nextGraveId, plot_id := plot_id,
            deceased_name := strim deceased_name, is_active := is_active }
        let db1 := { db with graves := db.graves ++ [g],
                             nextGraveId := db.nextGraveId + 1 }
        (.created "burial record added", setPlotStatus db1 plot_id "occupied")

/-- Embeds `addBurialRecord` — burial-records.controller.js:151. Locks the plot
row but never reads its status: the grave is inserted and the plot set
occupied unconditionally (no occupancy conflict, no plot-exists check). -/
def addBurialRecordB (db : DB) (plot_id : Nat) (deceased_name : String)
    (is_active : Bool) : Resp × DB :=
  if strim deceased_name = "" then
    (.badRequest "plot_id and deceased_name are required", db)
  else
    let g : Grave :=
      { id := db.nextGraveId, plot_id := plot_id,
        deceased_name := strim deceased_name, is_active := is_active }
    let db1 := { db with graves := db.graves ++ [g],
                         nextGraveId := db.nextGraveId + 1 }
    (.created "burial record added", setPlotStatus db1 plot_id "occupied")

/-- Result of `editBurialRecord`: response, final state, and the plot ids
locked with `FOR UPDATE` in acquisition order. -/
structure EditOut where
  resp : Resp
  db : DB
  locks : List Nat
deriving Repr, DecidableEq

/-- The COALESCE row update performed by `editBurialRecord` on the graves
table (`UPDATE graves SET ... WHERE id = identifier`). -/
def graveUpdate (identifier : Nat) (plot_id : Option Nat)
    (deceased_name : Option String) (is_active : Option Bool)
    (g : Grave) : Grave :=
  if g.id = identifier then
    { g with plot_id := plot_id.getD g.plot_id,
             deceased_name := deceased_name.getD g.deceased_name,
             is_active := is_active.getD g.is_active }
  else g

/-- The tail of `editBurialRecord` after the locking phase: the COALESCE
update of the grave row, `UPDATE plots SET status='occupied'` on the final
plot, and the `plotHasAnyGrave` re-evaluation of the old plot. -/
def editApply (db : DB) (identifier : Nat) (plot_id : Option Nat)
    (deceased_name : Option String) (is_active : Option Bool)
    (cur : Grave) (locks : List Nat) : EditOut :=
  let db1 := { db with
    graves :=
      db.graves.map (graveUpdate identifier plot_id deceased_name is_active) }
  let finalPlotId :=
    (graveUpdate identifier plot_id deceased_name is_active cur).plot_id
  let db2 := setPlotStatus db1 finalPlotId "occupied"
  let db3 :=
    if cur.plot_id ≠ finalPlotId ∧ ¬ plotHasAnyGrave db2.graves cur.plot_id then
      setPlotStatus db2 cur.plot_id "available"
    else db2
  ⟨.ok "updated", db3, locks⟩

/-- Embeds `editBurialRecord` — admin.controller.js (part_007:906). When the plot
changes, it locks the NEW plot first (404 / conflict through it), then the
OLD plot — the order depends on the direction of the move, not on a fixed
total order. On success the final plot is set occupied, and the old plot
becomes available only when `plotHasAnyGrave` (which ignores `is_active`)
finds no grave left on it. -/
def editBurialRecord (db : DB) (identifier : Nat) (plot_id : Option Nat)
    (deceased_name : Option String) (is_active : Option Bool) : EditOut :=
  match findGrave db identifier with
  | none => ⟨.notFound "Burial record not found", db, []⟩
  | some cur =>
    match plot_id with
    | some newPlotId =>
      if cur.plot_id ≠ newPlotId then
        match findPlot db newPlotId with
        | none => ⟨.notFound "New plot not found", db, []⟩
        | some lockNew =>
          if slower lockNew.status = "occupied" then
            ⟨.conflict "New plot is already occupied", db, [newPlotId]⟩
          else
            editApply db identifier plot_id deceased_name is_active cur
              [newPlotId, cur.plot_id]
      else
        editApply db identifier plot_id deceased_name is_active cur []
    | none =>
      editApply db identifier plot_id deceased_name is_active cur []

/-- Embeds `deleteBurialRecord` — admin.controller.js (part_007:1028). Deletes the
grave and reverts the plot to `available` when `plotHasAnyGrave` (again
ignoring `is_active`) finds no grave left on it. -/
def deleteBurialRecord (db : DB) (identifier : Nat) : Resp × DB :=
  match findGrave db identifier with
  | none => (.notFound "Record not found.", db)
  | some cur =>
    let db1 := { db with graves := db.graves.filter (fun g => g.id != identifier) }
    if ¬ plotHasAnyGrave db1.graves cur.plot_id then
      (.ok "deleted", setPlotStatus db1 cur.plot_id "available")
    else (.ok "deleted", db1)

/-- Embeds `confirmBurialRequestAsAdmin` — admin.controller.js (part_007:1124).
An already confirmed/completed request is answered with success and no
change; a cancelled/rejected one conflicts; the plot must exist and not be
occupied; an approved reservation for the same user and plot must exist.
On success: grave created, plot occupied, request confirmed, matching
approved reservations completed. -/
def confirmBurialRequestAsAdmin (db : DB) (id : Nat) : Resp × DB :=
  match findRequest db id with
  | none => (.notFound "Burial request not found", db)
  | some br =>
    let brStatus := slower br.status
    if brStatus = "confirmed" ∨ brStatus = "completed" then
      (.ok "Already confirmed", db)
    else if brStatus = "canceled" ∨ brStatus = "cancelled" ∨ brStatus = "rejected" then
      (.conflict ("Cannot confirm a " ++ brStatus ++ " request."), db)
    else
      match br.plot_id with
      | none => (.badRequest "Burial request has no plot_id.", db)
      | some plotId =>
        match findPlot db plotId with
        | none => (.notFound "Plot not found", db)
        | some plotRow =>
          if slower plotRow.status = "occupied" then
            (.conflict "Plot is already occupied", db)
          else if ¬ db.reservations.any (fun r =>
              r.plot_id == plotId && r.user_id == br.family_contact &&
              slower r.status == "approved") then
            (.conflict "No approved reservation found for this user+plot. Cannot confirm burial.", db)
          else
            let g : Grave :=
              { id := db.nextGraveId, plot_id := plotId,
                deceased_name := strim br.deceased_name, is_active := true }
            let db1 := { db with graves := db.graves ++ [g],
                                 nextGraveId := db.nextGraveId + 1 }
            let db2 := setPlotStatus db1 plotId "occupied"
            let confirmReq : BurialRequest → BurialRequest := fun b =>
              if b.id = id then { b with status := "confirmed" } else b
            let db3 := { db2 with requests := db2.requests.map confirmReq }
            let completeRes : Reservation → Reservation := fun r =>
              if r.plot_id = plotId ∧ r.user_id = br.family_contact ∧
                  slower r.status = "approved" then
                { r with status := "completed" }
              else r
            let db4 := { db3 with reservations := db3.reservations.map completeRes }
            (.ok "Burial confirmed. Grave record created.", db4)


/-! ## Helper lemmas -/

theorem findPlot_mem {db : DB} {pid : Nat} {p : Plot}
    (h : findPlot db pid = some p) : p ∈ db.plots ∧ p.id = pid := by
  refine ⟨List.mem_of_find?_eq_some h, ?_⟩
  have hp := List.find?_some h
  simpa using hp

theorem findRes_mem {db : DB} {rid : Nat} {r : Reservation}
    (h : findRes db rid = some r) : r ∈ db.reservations ∧ r.id = rid := by
  refine ⟨List.mem_of_find?_eq_some h, ?_⟩
  have hp := List.find?_some h
  simpa using hp

theorem findGrave_mem {db : DB} {gid : Nat} {g : Grave}
    (h : findGrave db gid = some g) : g ∈ db.graves ∧ g.id = gid := by
  refine ⟨List.mem_of_find?_eq_some h, ?_⟩
  have hp := List.find?_some h
  simpa using hp

theorem findResOfUser_mem {db : DB} {rid uid : Nat} {r : Reservation}
    (h : findResOfUser db rid uid = some r) :
    r ∈ db.reservations ∧ r.id = rid ∧ r.user_id = uid := by
  refine ⟨List.mem_of_find?_eq_some h, ?_⟩
  have hp := List.find?_some h
  simp only [Bool.and_eq_true, beq_iff_eq] at hp
  exact hp

/-! ## Claim C10 -/

/-- Claim C10: re-applying a terminal transition to an entity already in
that state is idempotent and reported as success — approving an
already-approved Reservation, rejecting an already-rejected one,
cancelling an already-cancelled one, and confirming an already-confirmed
Burial Request each return a success response and leave the whole data
store (every Reservation, Plot and Burial Record) unchanged. -/
theorem C10_terminal_reapply_idempotent :
    (∀ (db : DB) (rid : Nat) (r : Reservation),
        findRes db rid = some r → slower r.status = "approved" →
        approveReservationAsAdminV db rid = (.ok "Already approved", db)) ∧
    (∀ (db : DB) (rid : Nat) (r : Reservation),
        findRes db rid = some r → slower r.status = "rejected" →
        rejectReservationAsAdminV db rid = (.ok "Already rejected", db)) ∧
    (∀ (db : DB) (rid : Nat) (r : Reservation),
        findRes db rid = some r → slower r.status = "cancelled" →
        cancelReservationAsAdminV db rid = (.ok "Already cancelled", db)) ∧
    (∀ (db : DB) (bid : Nat) (b : BurialRequest),
        findRequest db bid = some b →
        (slower b.status = "confirmed" ∨ slower b.status = "completed") →
        confirmBurialRequestAsAdmin db bid = (.ok "Already confirmed", db)) := by
  refine ⟨?_, ?_, ?_, ?_⟩
  · intro db rid r h hs
    unfold approveReservationAsAdminV
    rw [h]
    simp [hs]
  · intro db rid r h hs
    unfold rejectReservationAsAdminV
    rw [h]
    simp [hs]
  · intro db rid r h hs
    unfold cancelReservationAsAdminV
    rw [h]
    simp [hs]
  · intro db bid b h hs
    unfold confirmBurialRequestAsAdmin
    rw [h]
    rcases hs with hs | hs <;> simp [hs]

def dbC10 : DB :=
  { plots := [⟨1, "reserved"⟩, ⟨2, "available"⟩],
    reservations :=
      [⟨1, 1, 10, "approved", "approved", "receipt1.png"⟩,
       ⟨2, 2, 11, "rejected", "unpaid", ""⟩,
       ⟨3, 2, 12, "cancelled", "unpaid", ""⟩],
    graves := [],
    requests := [⟨1, some 1, 10, "Jose Protacio", "confirmed"⟩],
    users := [⟨10, "visitor"⟩, ⟨11, "visitor"⟩, ⟨12, "visitor"⟩],
    nextResId := 4, nextGraveId := 1 }

/-- Witness for C10: the four idempotent re-applications, evaluated on a
concrete store. -/
theorem C10_terminal_reapply_idempotent_witness :
    approveReservationAsAdminV dbC10 1 = (.ok "Already approved", dbC10) ∧
    rejectReservationAsAdminV dbC10 2 = (.ok "Already rejected", dbC10) ∧
    cancelReservationAsAdminV dbC10 3 = (.ok "Already cancelled", dbC10) ∧
    confirmBurialRequestAsAdmin dbC10 1 = (.ok "Already confirmed", dbC10) := by
  refine ⟨?_, ?_, ?_, ?_⟩
  · exact C10_terminal_reapply_idempotent.1 dbC10 1
      ⟨1, 1, 10, "approved", "approved", "receipt1.png"⟩ (by decide) (by decide)
  · exact C10_terminal_reapply_idempotent.2.1 dbC10 2
      ⟨2, 2, 11, "rejected", "unpaid", ""⟩ (by decide) (by decide)
  · exact C10_terminal_reapply_idempotent.2.2.1 dbC10 3
      ⟨3, 2, 12, "cancelled", "unpaid", ""⟩ (by decide) (by decide)
  · exact C10_terminal_reapply_idempotent.2.2.2 dbC10 1
      ⟨1, some 1, 10, "Jose Protacio", "confirmed"⟩ (by decide) (Or.inl (by decide))

/-! ## Claim C5 -/

def dbC5 : DB :=
  { plots := [⟨1, "available"⟩],
    reservations := [⟨1, 1, 10, "pending", "rejected", "receipt.png"⟩],
    graves := [], requests := [], users := [⟨10, "visitor"⟩],
    nextResId := 2, nextGraveId := 1 }

/-- Counterexample to C5 as stated: `approvePaymentAsAdmin` does not
require `payment_status ∈ (validated | submitted)` — on a reservation
whose payment was previously REJECTED (receipt still stored), the call
succeeds and overwrites `payment_status` with `approved`. -/
theorem C5_counterexample :
    (∃ r ∈ dbC5.reservations, r.id = 1 ∧ r.payment_status = "rejected" ∧
      strim r.payment_receipt_url ≠ "") ∧
    (approvePaymentAsAdmin dbC5 1).1.isSuccess = true ∧
    (∃ r ∈ (approvePaymentAsAdmin dbC5 1).2.reservations,
      r.id = 1 ∧ r.payment_status = "approved") := by decide

/-- Claim C5 (amended): `approvePayment` requires a non-terminal
Reservation and a stored payment-receipt reference, failing with Conflict
when no payment proof has been uploaded; it performs NO check of
`payment_status` (the `validated/submitted` guard is disabled in the
source); on success it sets `payment_status` to `approved`. -/
theorem C5_approvePayment_requires_receipt (db : DB) (rid : Nat)
    (r : Reservation) (hr : findRes db rid = some r)
    (hnt : isClosedStatus (slower r.status) = false) :
    (strim r.payment_receipt_url = "" →
      approvePaymentAsAdmin db rid =
        (.conflict "Cannot approve payment: no receipt uploaded.", db)) ∧
    (strim r.payment_receipt_url ≠ "" →
      (approvePaymentAsAdmin db rid).1 = .ok "Payment approved" ∧
      ∀ r' ∈ (approvePaymentAsAdmin db rid).2.reservations,
        r'.id = rid → r'.payment_status = "approved") := by
  unfold approvePaymentAsAdmin
  rw [hr]
  simp only [hnt, Bool.false_eq_true, if_false]
  constructor
  · intro h
    simp [h]
  · intro h
    rw [if_neg h]
    refine ⟨rfl, ?_⟩
    intro r' hmem hid
    unfold mapRes at hmem
    simp only [List.mem_map] at hmem
    obtain ⟨x, _hx, hxe⟩ := hmem
    by_cases hxid : x.id = rid
    · rw [← hxe]
      simp [hxid]
    · exfalso
      rw [← hxe] at hid
      simp [hxid] at hid

def dbC5w : DB :=
  { plots := [⟨1, "available"⟩],
    reservations := [⟨1, 1, 10, "pending", "unpaid", ""⟩],
    graves := [], requests := [], users := [⟨10, "visitor"⟩],
    nextResId := 2, nextGraveId := 1 }

/-- Witness for C5: the conflict branch on a reservation without a
receipt, and the success branch on `dbC5`. -/
theorem C5_approvePayment_requires_receipt_witness :
    approvePaymentAsAdmin dbC5w 1 =
      (.conflict "Cannot approve payment: no receipt uploaded.", dbC5w) ∧
    (approvePaymentAsAdmin dbC5 1).1 = .ok "Payment approved" := by
  constructor
  · exact (C5_approvePayment_requires_receipt dbC5w 1
      ⟨1, 1, 10, "pending", "unpaid", ""⟩ (by decide) (by decide)).1 (by decide)
  · exact ((C5_approvePayment_requires_receipt dbC5 1
      ⟨1, 1, 10, "pending", "rejected", "receipt.png"⟩ (by decide)
      (by decide)).2 (by decide)).1

/-! ## Claim C9 -/

def dbC9 : DB :=
  { plots := [⟨1, "reserved"⟩],
    reservations := [⟨1, 1, 10, "pending", "approved", "old.png"⟩],
    graves := [], requests := [], users := [⟨10, "visitor"⟩],
    nextResId := 2, nextGraveId := 1 }

/-- Counterexample to C9 as stated: the upload guard checks for
`payment_status = 'accepted'`, not `'approved'` — on a reservation whose
`payment_status` is `approved`, uploading a new receipt is PERMITTED: it
succeeds, resets `payment_status` to `submitted` and replaces the stored
reference. -/
theorem C9_counterexample :
    (∃ r ∈ dbC9.reservations, r.id = 1 ∧ r.user_id = 10 ∧
      r.payment_status = "approved" ∧
      isClosedStatus (slower r.status) = false) ∧
    (uploadReservationReceipt dbC9 1 10 "new.png").1.isSuccess = true ∧
    (∃ r ∈ (uploadReservationReceipt dbC9 1 10 "new.png").2.reservations,
      r.id = 1 ∧ r.payment_status = "submitted" ∧
      r.payment_receipt_url = "new.png") := by decide

/-- Claim C9 (amended): `uploadPaymentProof` is permitted only while the
Reservation's status is not terminal (rejected / cancelled / completed)
and its `payment_status` is not `accepted` (the marker written by the
admin accept-payment endpoint; a `payment_status` of `approved` does NOT
block re-upload); on success it stores the new asset reference, replacing
any prior one, and sets `payment_status` to `submitted`. -/
theorem C9_uploadReceipt_guard_and_effect (db : DB) (rid uid : Nat)
    (url : String) (r : Reservation)
    (hr : findResOfUser db rid uid = some r) :
    (isClosedStatus (slower r.status) = true →
      (uploadReservationReceipt db rid uid url).1 =
        .conflict ("Cannot upload receipt because reservation is "
          ++ slower r.status ++ ".") ∧
      (uploadReservationReceipt db rid uid url).2 = db) ∧
    (isClosedStatus (slower r.status) = false →
      slower r.payment_status = "accepted" →
      uploadReservationReceipt db rid uid url =
        (.conflict "Payment is already accepted. Receipt can no longer be changed.", db)) ∧
    (isClosedStatus (slower r.status) = false →
      slower r.payment_status ≠ "accepted" →
      (uploadReservationReceipt db rid uid url).1 =
        .ok "Receipt uploaded. Waiting for admin approval." ∧
      ∀ r' ∈ (uploadReservationReceipt db rid uid url).2.reservations,
        r'.id = rid → r'.user_id = uid →
        r'.payment_status = "submitted" ∧ r'.payment_receipt_url = url) := by
  unfold uploadReservationReceipt uploadReceiptCheck
  rw [hr]
  refine ⟨?_, ?_, ?_⟩
  · intro h
    simp [h]
  · intro h hacc
    simp [h, hacc]
  · intro h hacc
    simp only [h, Bool.false_eq_true, if_false, if_neg hacc]
    refine ⟨by trivial, ?_⟩
    intro r' hmem hid huid
    unfold uploadReceiptApply at hmem
    simp only [List.mem_map] at hmem
    obtain ⟨x, _hx, hxe⟩ := hmem
    by_cases hxk : x.id = rid ∧ x.user_id = uid
    · rw [← hxe]
      simp [hxk]
    · exfalso
      rw [← hxe] at hid huid
      simp only [hxk, if_false] at hid huid
      exact hxk ⟨hid, huid⟩

def dbC9w : DB :=
  { plots := [⟨1, "reserved"⟩],
    reservations := [⟨1, 1, 10, "cancelled", "unpaid", ""⟩],
    graves := [], requests := [], users := [⟨10, "visitor"⟩],
    nextResId := 2, nextGraveId := 1 }

/-- Witness for C9: the terminal-status conflict branch and the success
branch, at concrete stores. -/
theorem C9_uploadReceipt_guard_and_effect_witness :
    (uploadReservationReceipt dbC9w 1 10 "a.png").2 = dbC9w ∧
    (uploadReservationReceipt dbC9 1 10 "new.png").1 =
      .ok "Receipt uploaded. Waiting for admin approval." := by
  constructor
  · exact ((C9_uploadReceipt_guard_and_effect dbC9w 1 10 "a.png"
      ⟨1, 1, 10, "cancelled", "unpaid", ""⟩ (by decide)).1 (by decide)).2
  · exact ((C9_uploadReceipt_guard_and_effect dbC9 1 10 "new.png"
      ⟨1, 1, 10, "pending", "approved", "old.png"⟩ (by decide)).2.2
      (by decide) (by decide)).1

/-! ## Claim C2 -/

/-- Number of reservations in `(pending | approved)` referencing a plot. -/
def activeResCount (db : DB) (pid : Nat) : Nat :=
  (db.reservations.filter (fun r => r.plot_id == pid &&
    (slower r.status == "pending" || slower r.status == "approved"))).length

/-- The invariant asserted by C2: at most one active reservation per plot. -/
def atMostOneActivePerPlot (db : DB) : Bool :=
  db.plots.all (fun p => activeResCount db p.id ≤ 1)

def dbC2 : DB :=
  { plots := [⟨1, "available"⟩], reservations := [], graves := [],
    requests := [], users := [⟨10, "visitor"⟩, ⟨11, "visitor"⟩],
    nextResId := 1, nextGraveId := 1 }

/-- Counterexample to C2 as stated: a pending reservation does not change
the plot status and only SAME-holder duplicates are rejected, so two
`reservePlot` (createReservation) calls on the same available plot by two
different holders BOTH succeed, leaving two active (pending) reservations
on plot 1 — the at-most-one-active invariant fails in a state reachable
in two steps, and neither caller receives Conflict. -/
theorem C2_counterexample :
    atMostOneActivePerPlot dbC2 = true ∧
    (reservePlot dbC2 1 10).1.isSuccess = true ∧
    (reservePlot (reservePlot dbC2 1 10).2 1 11).1.isSuccess = true ∧
    activeResCount (reservePlot (reservePlot dbC2 1 10).2 1 11).2 1 = 2 ∧
    atMostOneActivePerPlot (reservePlot (reservePlot dbC2 1 10).2 1 11).2
      = false := by decide

/-- Claim C2 (amended): the duplicate check of createReservation is
per holder — of two `reservePlot` calls on the same non-occupied,
non-reserved Plot BY THE SAME HOLDER, exactly one succeeds: the first
inserts a pending reservation, the second fails with Conflict and leaves
the store unchanged. (Different holders are not serialized: pending
reservations do not lock the Plot, so each may hold one.) -/
theorem C2_same_holder_second_conflicts (db : DB) (pid uid : Nat) (p : Plot)
    (hp : findPlot db pid = some p)
    (hs1 : ¬(slower p.status = "occupied" ∨ slower p.status = "reserved"))
    (hdup : db.reservations.any (fun r => r.plot_id == pid && r.user_id == uid &&
      (slower r.status == "pending" || slower r.status == "approved")) = false) :
    (reservePlot db pid uid).1.isSuccess = true ∧
    reservePlot (reservePlot db pid uid).2 pid uid =
      (.conflict "You already have an active reservation for this plot.",
       (reservePlot db pid uid).2) := by
  have hlp : slower "pending" = "pending" := by decide
  have hfirst : reservePlot db pid uid =
      (.created "Reservation submitted (pending admin approval)",
        { db with
          reservations := db.reservations ++
            [⟨db.nextResId, pid, uid, "pending", defaultPaymentStatus, ""⟩],
          nextResId := db.nextResId + 1 }) := by
    unfold reservePlot
    rw [hp]
    dsimp only
    rw [if_neg hs1, hdup]
    simp
  refine ⟨by rw [hfirst]; rfl, ?_⟩
  rw [hfirst]
  dsimp only
  have hp2 : findPlot
      { db with
        reservations := db.reservations ++
          [⟨db.nextResId, pid, uid, "pending", defaultPaymentStatus, ""⟩],
        nextResId := db.nextResId + 1 } pid = some p := hp
  unfold reservePlot
  rw [hp2]
  dsimp only
  rw [if_neg hs1]
  have hany : ((db.reservations ++
      [(⟨db.nextResId, pid, uid, "pending", defaultPaymentStatus, ""⟩ :
        Reservation)]).any (fun r =>
      r.plot_id == pid && r.user_id == uid &&
      (slower r.status == "pending" || slower r.status == "approved"))) = true := by
    simp [List.any_append, hlp]
  rw [hany]
  simp

def dbC2w : DB :=
  { plots := [⟨1, "available"⟩], reservations := [], graves := [],
    requests := [], users := [⟨10, "visitor"⟩],
    nextResId := 1, nextGraveId := 1 }

/-- Witness for C2 (amended): the same-holder pair on a concrete store. -/
theorem C2_same_holder_second_conflicts_witness :
    (reservePlot dbC2w 1 10).1.isSuccess = true ∧
    reservePlot (reservePlot dbC2w 1 10).2 1 10 =
      (.conflict "You already have an active reservation for this plot.",
       (reservePlot dbC2w 1 10).2) :=
  C2_same_holder_second_conflicts dbC2w 1 10 ⟨1, "available"⟩
    (by decide) (by decide) (by decide)

/-! ## Claim C3 -/

theorem findPlot_setPlotStatus (db : DB) (pid : Nat) (st : String)
    (tid : Nat) :
    findPlot (setPlotStatus db pid st) tid =
      (findPlot db tid).map
        (fun p => if p.id = pid then { p with status := st } else p) := by
  unfold findPlot setPlotStatus
  dsimp only
  rw [List.find?_map]
  have hcomp : ((fun p : Plot => p.id == tid) ∘
      fun p => if p.id = pid then { p with status := st } else p) =
      (fun p : Plot => p.id == tid) := by
    funext q
    by_cases h : q.id = pid <;> simp [h]
  rw [hcomp]

def dbC3 : DB :=
  { plots := [⟨1, "available"⟩], reservations := [], graves := [],
    requests := [], users := [], nextResId := 1, nextGraveId := 1 }

/-- Counterexample to C3 as stated: the mounted burial-records-controller
variant of createBurialRecord (`POST /api/graves`) locks the plot row but
never reads its status — called twice on the same available plot, BOTH
calls succeed (the second does not fail with Conflict even though the plot
is occupied by then), leaving two graves on plot 1. -/
theorem C3_counterexample :
    (addBurialRecordB dbC3 1 "Andres Bonifacio" true).1.isSuccess = true ∧
    ((findPlot (addBurialRecordB dbC3 1 "Andres Bonifacio" true).2 1).map
      Plot.status = some "occupied") ∧
    (addBurialRecordB (addBurialRecordB dbC3 1 "Andres Bonifacio" true).2
      1 "Emilio Jacinto" true).1.isSuccess = true ∧
    ((addBurialRecordB (addBurialRecordB dbC3 1 "Andres Bonifacio" true).2
      1 "Emilio Jacinto" true).2.graves.filter
        (fun g => g.plot_id == 1)).length = 2 := by decide

/-- Claim C3 (amended): the admin-controller createBurialRecord
(`POST /api/admin/burial-records`) locks the Plot, inserts the record and
sets the Plot occupied when it was not, and of two serialized calls on the
same non-occupied Plot exactly one succeeds — the second fails with
Conflict and changes nothing. (The burial-records-controller variant
performs no occupancy check, as the counterexample shows.) -/
theorem C3_addBurialRecordA_second_conflicts (db : DB) (pid : Nat)
    (name1 name2 : String) (act1 act2 : Bool) (p : Plot)
    (hp : findPlot db pid = some p)
    (hocc : ¬ slower p.status = "occupied")
    (hn1 : ¬ strim name1 = "") (hn2 : ¬ strim name2 = "") :
    (addBurialRecordA db pid name1 act1).1.isSuccess = true ∧
    (∃ g ∈ (addBurialRecordA db pid name1 act1).2.graves,
        g.plot_id = pid ∧ g.deceased_name = strim name1) ∧
    (∀ q ∈ (addBurialRecordA db pid name1 act1).2.plots,
        q.id = pid → q.status = "occupied") ∧
    addBurialRecordA (addBurialRecordA db pid name1 act1).2 pid name2 act2 =
      (.conflict "Plot is already occupied",
       (addBurialRecordA db pid name1 act1).2) := by
  have hpid : p.id = pid := (findPlot_mem hp).2
  have hfirst : addBurialRecordA db pid name1 act1 =
      (.created "burial record added",
        setPlotStatus
          { db with
            graves := db.graves ++ [⟨db.nextGraveId, pid, strim name1, act1⟩],
            nextGraveId := db.nextGraveId + 1 } pid "occupied") := by
    unfold addBurialRecordA
    rw [if_neg hn1, hp]
    dsimp only
    rw [if_neg hocc]
  refine ⟨by rw [hfirst]; rfl, ?_, ?_, ?_⟩
  · rw [hfirst]
    dsimp only [setPlotStatus]
    exact ⟨⟨db.nextGraveId, pid, strim name1, act1⟩, by simp, rfl, rfl⟩
  · rw [hfirst]
    dsimp only [setPlotStatus]
    intro q hq hqid
    simp only [List.mem_map] at hq
    obtain ⟨x, _hx, hxe⟩ := hq
    by_cases hxid : x.id = pid
    · rw [← hxe]
      simp [hxid]
    · exfalso
      rw [← hxe] at hqid
      simp [hxid] at hqid
  · rw [hfirst]
    dsimp only
    have hp2 : findPlot
        (setPlotStatus
          { db with
            graves := db.graves ++ [⟨db.nextGraveId, pid, strim name1, act1⟩],
            nextGraveId := db.nextGraveId + 1 } pid "occupied") pid =
        some { p with status := "occupied" } := by
      rw [findPlot_setPlotStatus]
      have hpl : findPlot
          { db with
            graves := db.graves ++ [⟨db.nextGraveId, pid, strim name1, act1⟩],
            nextGraveId := db.nextGraveId + 1 } pid = some p := hp
      rw [hpl]
      simp [hpid]
    unfold addBurialRecordA
    rw [if_neg hn2, hp2]
    dsimp only
    rw [if_pos (by decide : slower "occupied" = "occupied")]

/-- Witness for C3 (amended): the serialized pair on a concrete store. -/
theorem C3_addBurialRecordA_second_conflicts_witness :
    (addBurialRecordA dbC3 1 "Andres" true).1.isSuccess = true ∧
    addBurialRecordA (addBurialRecordA dbC3 1 "Andres" true).2 1 "Emilio" true
      = (.conflict "Plot is already occupied",
         (addBurialRecordA dbC3 1 "Andres" true).2) := by
  have h := C3_addBurialRecordA_second_conflicts dbC3 1 "Andres" "Emilio"
    true true ⟨1, "available"⟩ (by decide) (by decide) (by decide) (by decide)
  exact ⟨h.1, h.2.2.2⟩

/-! ## Claim C6 -/

def dbC6 : DB :=
  { plots := [⟨1, "available"⟩], reservations := [], graves := [],
    requests := [], users := [⟨10, "visitor"⟩],
    nextResId := 1, nextGraveId := 1 }

/-- Counterexample to C6 as stated: the system does NOT apply a single
locking variant consistently. From the same store, the visitor-facing
createReservation (`reservePlot`) succeeds and leaves the plot
`available` (lock on approve), while the admin variant
(`reservePlotAsAdmin`) succeeds and sets the very same plot `reserved`
(lock on create): the two mounted code paths mix both variants. -/
theorem C6_counterexample :
    (reservePlot dbC6 1 10).1.isSuccess = true ∧
    ((findPlot (reservePlot dbC6 1 10).2 1).map Plot.status
      = some "available") ∧
    (reservePlotAsAdmin dbC6 1 10).1.isSuccess = true ∧
    ((findPlot (reservePlotAsAdmin dbC6 1 10).2 1).map Plot.status
      = some "reserved") := by decide

/-- Claim C6 (amended): the visitor createReservation (`reservePlot`)
fails with Conflict if the Plot is occupied or reserved, or if the holder
already has an active (pending/approved) Reservation on that Plot;
otherwise it inserts a Reservation with status pending and payment_status
unpaid and leaves the Plot's status unchanged (lock-on-approve variant).
The admin variant (`reservePlotAsAdmin`) instead requires the Plot to be
`available` and marks it `reserved` at creation (lock-on-create variant),
so the code base mixes the two locking variants across its two creation
paths. -/
theorem C6_createReservation_behavior :
    (∀ (db : DB) (pid uid : Nat) (p : Plot), findPlot db pid = some p →
      (slower p.status = "occupied" ∨ slower p.status = "reserved") →
      reservePlot db pid uid =
        (.conflict ("Plot is locked (" ++ p.status ++ ")"), db)) ∧
    (∀ (db : DB) (pid uid : Nat) (p : Plot), findPlot db pid = some p →
      ¬(slower p.status = "occupied" ∨ slower p.status = "reserved") →
      (db.reservations.any (fun r => r.plot_id == pid && r.user_id == uid &&
        (slower r.status == "pending" || slower r.status == "approved")))
        = true →
      reservePlot db pid uid =
        (.conflict "You already have an active reservation for this plot.",
         db)) ∧
    (∀ (db : DB) (pid uid : Nat) (p : Plot), findPlot db pid = some p →
      ¬(slower p.status = "occupied" ∨ slower p.status = "reserved") →
      (db.reservations.any (fun r => r.plot_id == pid && r.user_id == uid &&
        (slower r.status == "pending" || slower r.status == "approved")))
        = false →
      reservePlot db pid uid =
        (.created "Reservation submitted (pending admin approval)",
          { db with
            reservations := db.reservations ++
              [⟨db.nextResId, pid, uid, "pending", defaultPaymentStatus, ""⟩],
            nextResId := db.nextResId + 1 }) ∧
      (reservePlot db pid uid).2.plots = db.plots) ∧
    (∀ (db : DB) (pid uid : Nat) (p : Plot) (u : User),
      db.users.find? (fun x => x.id == uid) = some u →
      slower u.role = "visitor" →
      findPlot db pid = some p → slower p.status = "available" →
      (reservePlotAsAdmin db pid uid).1.isSuccess = true ∧
      ∀ q ∈ (reservePlotAsAdmin db pid uid).2.plots,
        q.id = pid → q.status = "reserved") := by
  refine ⟨?_, ?_, ?_, ?_⟩
  · intro db pid uid p hp hlocked
    unfold reservePlot
    rw [hp]
    dsimp only
    rw [if_pos hlocked]
  · intro db pid uid p hp hfree hdup
    unfold reservePlot
    rw [hp]
    dsimp only
    rw [if_neg hfree, hdup]
    simp
  · intro db pid uid p hp hfree hdup
    have hcall : reservePlot db pid uid =
        (.created "Reservation submitted (pending admin approval)",
          { db with
            reservations := db.reservations ++
              [⟨db.nextResId, pid, uid, "pending", defaultPaymentStatus, ""⟩],
            nextResId := db.nextResId + 1 }) := by
      unfold reservePlot
      rw [hp]
      dsimp only
      rw [if_neg hfree, hdup]
      simp
    exact ⟨hcall, by rw [hcall]⟩
  · intro db pid uid p u hu hrole hp hav
    have hcall : reservePlotAsAdmin db pid uid =
        (.created "reservation created",
          setPlotStatus
            { db with
              reservations := db.reservations ++
                [⟨db.nextResId, pid, uid, "pending", "unpaid", ""⟩],
              nextResId := db.nextResId + 1 } pid "reserved") := by
      unfold reservePlotAsAdmin
      rw [hu]
      dsimp only
      rw [if_neg (by simp [hrole])]
      rw [hp]
      dsimp only
      rw [if_neg (by simp [hav])]
    refine ⟨by rw [hcall]; rfl, ?_⟩
    rw [hcall]
    dsimp only [setPlotStatus]
    intro q hq hqid
    simp only [List.mem_map] at hq
    obtain ⟨x, _hx, hxe⟩ := hq
    by_cases hxid : x.id = pid
    · rw [← hxe]
      simp [hxid]
    · exfalso
      rw [← hxe] at hqid
      simp [hxid] at hqid

/-- Witness for C6 (amended): the success branches of both variants on a
concrete store. -/
theorem C6_createReservation_behavior_witness :
    (reservePlot dbC6 1 10).2.plots = dbC6.plots ∧
    (reservePlotAsAdmin dbC6 1 10).1.isSuccess = true := by
  constructor
  · exact (C6_createReservation_behavior.2.2.1 dbC6 1 10 ⟨1, "available"⟩
      (by decide) (by decide) (by decide)).2
  · exact (C6_createReservation_behavior.2.2.2 dbC6 1 10 ⟨1, "available"⟩
      ⟨10, "visitor"⟩ (by decide) (by decide) (by decide) (by decide)).1

/-! ## Claim C4 -/

/-- Claim C4: approveReservation (visitor-controller admin endpoint)
requires the Reservation to be pending (terminal states conflict), a
stored receipt with the payment effectively approved (submitted/accepted;
an unpaid payment conflicts), and the Plot not occupied — failing with Conflict when the Plot has become
occupied since the Reservation was created; on success it sets the
Reservation approved and the Plot reserved, and rejects every other
pending Reservation on the same Plot (afterwards no other pending
reservation references the Plot). -/
theorem C4_approveReservation_checks_and_effects :
    (∀ (db : DB) (rid : Nat) (r : Reservation),
      findRes db rid = some r → isClosedStatus (slower r.status) = true →
      (approveReservationAsAdminV db rid).1 =
        .conflict ("Cannot approve a " ++ slower r.status ++ " reservation") ∧
      (approveReservationAsAdminV db rid).2 = db) ∧
    (∀ (db : DB) (rid : Nat) (r : Reservation),
      findRes db rid = some r → r.status = "pending" →
      strim r.payment_receipt_url = "" →
      approveReservationAsAdminV db rid =
        (.conflict "Cannot approve reservation: no receipt uploaded yet.",
         db)) ∧
    (∀ (db : DB) (rid : Nat) (r : Reservation),
      findRes db rid = some r → r.status = "pending" →
      ¬ strim r.payment_receipt_url = "" → r.payment_status = "unpaid" →
      approveReservationAsAdminV db rid =
        (.conflict "Cannot approve reservation: receipt is not submitted/valid yet.",
         db)) ∧
    (∀ (db : DB) (rid : Nat) (r : Reservation) (p : Plot),
      findRes db rid = some r → r.status = "pending" →
      ¬ strim r.payment_receipt_url = "" → r.payment_status = "submitted" →
      findPlot db r.plot_id = some p → p.status = "occupied" →
      approveReservationAsAdminV db rid =
        (.conflict ("Cannot approve: plot is locked (" ++ p.status ++ ")."),
         db)) ∧
    (∀ (db : DB) (rid : Nat) (r : Reservation) (p : Plot),
      findRes db rid = some r → r.status = "pending" →
      ¬ strim r.payment_receipt_url = "" → r.payment_status = "submitted" →
      findPlot db r.plot_id = some p → p.status = "available" →
      (approveReservationAsAdminV db rid).1 = .ok "Reservation approved" ∧
      (∀ r' ∈ (approveReservationAsAdminV db rid).2.reservations,
        r'.id = rid → r'.status = "approved") ∧
      (∀ q ∈ (approveReservationAsAdminV db rid).2.plots,
        q.id = r.plot_id → q.status = "reserved") ∧
      (∀ r' ∈ (approveReservationAsAdminV db rid).2.reservations,
        r'.plot_id = r.plot_id → ¬ r'.id = rid →
        ¬ slower r'.status = "pending")) := by
  refine ⟨?_, ?_, ?_, ?_, ?_⟩
  · intro db rid r hr hterm
    have hna : ¬ slower r.status = "approved" := by
      intro h
      rw [h] at hterm
      exact absurd hterm (by decide)
    constructor <;>
    · unfold approveReservationAsAdminV
      rw [hr]
      dsimp only
      rw [if_neg hna, hterm]
      simp
  · intro db rid r hr hpend hrec
    have hsl : slower r.status = "pending" := by rw [hpend]; decide
    unfold approveReservationAsAdminV
    rw [hr]
    dsimp only
    rw [hsl]
    rw [if_neg (by decide : ¬("pending" : String) = "approved")]
    rw [if_neg (by decide : ¬ isClosedStatus "pending" = true)]
    rw [if_pos hrec]
  · intro db rid r hr hpend hrec hpay
    have hsl : slower r.status = "pending" := by rw [hpend]; decide
    have hps : slower r.payment_status = "unpaid" := by rw [hpay]; decide
    unfold approveReservationAsAdminV
    rw [hr]
    dsimp only
    rw [hsl]
    rw [if_neg (by decide : ¬("pending" : String) = "approved")]
    rw [if_neg (by decide : ¬ isClosedStatus "pending" = true)]
    rw [if_neg hrec]
    rw [hps]
    rw [if_pos (by decide :
      ("unpaid" : String) ≠ "" ∧
        ¬(("unpaid" : String) = "submitted" ∨
          ("unpaid" : String) = "accepted"))]
  · intro db rid r p hr hpend hrec hpay hp hocc
    have hsl : slower r.status = "pending" := by rw [hpend]; decide
    have hps : slower r.payment_status = "submitted" := by rw [hpay]; decide
    have hso : slower p.status = "occupied" := by rw [hocc]; decide
    unfold approveReservationAsAdminV
    rw [hr]
    dsimp only
    rw [hsl]
    rw [if_neg (by decide : ¬("pending" : String) = "approved")]
    rw [if_neg (by decide : ¬ isClosedStatus "pending" = true)]
    rw [if_neg hrec]
    rw [hps]
    rw [if_neg (by decide :
      ¬(("submitted" : String) ≠ "" ∧
        ¬(("submitted" : String) = "submitted" ∨
          ("submitted" : String) = "accepted")))]
    rw [hp]
    dsimp only
    rw [if_pos (Or.inl hso)]
  · intro db rid r p hr hpend hrec hpay hp hav
    have hsl : slower r.status = "pending" := by rw [hpend]; decide
    have hps : slower r.payment_status = "submitted" := by rw [hpay]; decide
    have hsa : slower p.status = "available" := by rw [hav]; decide
    unfold approveReservationAsAdminV mapRes setPlotStatus
    rw [hr]
    dsimp only
    rw [hsl]
    rw [if_neg (by decide : ¬("pending" : String) = "approved")]
    rw [if_neg (by decide : ¬ isClosedStatus "pending" = true)]
    rw [if_neg hrec]
    rw [hps]
    rw [if_neg (by decide :
      ¬(("submitted" : String) ≠ "" ∧
        ¬(("submitted" : String) = "submitted" ∨
          ("submitted" : String) = "accepted")))]
    rw [hp]
    dsimp only
    rw [if_neg (by rw [hsa]; decide :
      ¬(slower p.status = "occupied" ∨ slower p.status = "reserved"))]
    refine ⟨rfl, ?_, ?_, ?_⟩
    · intro r' hmem hid
      simp only [List.map_map, List.mem_map, Function.comp] at hmem
      obtain ⟨x, _hx, hxe⟩ := hmem
      by_cases hxid : x.id = rid
      · rw [← hxe]
        simp [hxid]
      · exfalso
        rw [← hxe] at hid
        simp only [if_neg hxid] at hid
        split at hid <;> exact hxid hid
    · intro q hmem hqid
      simp only [List.mem_map] at hmem
      obtain ⟨x, _hx, hxe⟩ := hmem
      by_cases hxid : x.id = r.plot_id
      · rw [← hxe]
        simp [hxid]
      · exfalso
        rw [← hxe] at hqid
        simp [hxid] at hqid
    · intro r' hmem hplot hid
      simp only [List.map_map, List.mem_map, Function.comp] at hmem
      obtain ⟨x, _hx, hxe⟩ := hmem
      by_cases hxid : x.id = rid
      · exfalso
        apply hid
        rw [← hxe]
        simp [hxid]
      · simp only [if_neg hxid] at hxe
        rw [← hxe] at hplot hid ⊢
        by_cases hcond : x.plot_id = r.plot_id ∧ x.id ≠ rid ∧
            slower x.status = "pending"
        · simp only [if_pos hcond]
          decide
        · simp only [if_neg hcond] at hplot ⊢
          intro hpend'
          exact hcond ⟨hplot, hxid, hpend'⟩

def dbC4 : DB :=
  { plots := [⟨1, "available"⟩],
    reservations :=
      [⟨1, 1, 10, "pending", "submitted", "r1.png"⟩,
       ⟨2, 1, 11, "pending", "unpaid", ""⟩],
    graves := [], requests := [],
    users := [⟨10, "visitor"⟩, ⟨11, "visitor"⟩],
    nextResId := 3, nextGraveId := 1 }

/-- Witness for C4: the success branch on a concrete store that also
carries a second pending reservation on the same plot. -/
theorem C4_approveReservation_checks_and_effects_witness :
    (approveReservationAsAdminV dbC4 1).1 = .ok "Reservation approved" ∧
    (∀ r' ∈ (approveReservationAsAdminV dbC4 1).2.reservations,
      r'.plot_id = 1 → ¬ r'.id = 1 → ¬ slower r'.status = "pending") := by
  have h := C4_approveReservation_checks_and_effects.2.2.2.2 dbC4 1
    ⟨1, 1, 10, "pending", "submitted", "r1.png"⟩ ⟨1, "available"⟩
    (by decide) (by decide) (by decide) (by decide) (by decide) (by decide)
  exact ⟨h.1, h.2.2.2⟩

/-! ## Claim C7 -/

def dbC7 : DB :=
  { plots := [⟨1, "available"⟩],
    reservations := [⟨1, 1, 10, "pending", "unpaid", ""⟩],
    graves := [], requests := [], users := [⟨10, "visitor"⟩],
    nextResId := 2, nextGraveId := 1 }

/-- Counterexample to C7 as stated: `uploadReservationReceipt` runs its
check and its UPDATE as two separate unlocked, non-transactional
statements, so its precondition is NOT re-verified under a lock
immediately before the mutation. Starting from a pending reservation, the
check passes; an admin cancellation is interleaved; the upload's UPDATE
still applies, leaving the observable state where a CANCELLED reservation
has just acquired `payment_status = submitted` and a fresh receipt —
although the check, re-run at mutation time, would have failed. -/
theorem C7_counterexample :
    uploadReceiptCheck dbC7 1 10 = none ∧
    (cancelReservationAsAdminV dbC7 1).1.isSuccess = true ∧
    (∃ r ∈ (uploadReceiptApply (cancelReservationAsAdminV dbC7 1).2
        1 10 "late.png").reservations,
      r.id = 1 ∧ r.status = "cancelled" ∧ r.payment_status = "submitted" ∧
      r.payment_receipt_url = "late.png") ∧
    uploadReceiptCheck (cancelReservationAsAdminV dbC7 1).2 1 10 =
      some (.conflict
        "Cannot upload receipt because reservation is cancelled.") := by
  decide

/-- A transactional operation either succeeds or returns the store
unchanged (every branch is a literal pair). -/
theorem atomic_reservePlot (db : DB) (pid uid : Nat) :
    (reservePlot db pid uid).1.isSuccess = true ∨
    (reservePlot db pid uid).2 = db := by
  unfold reservePlot
  dsimp only
  repeat' split
  all_goals first | exact Or.inl rfl | exact Or.inr rfl

theorem atomic_reservePlotAsAdmin (db : DB) (pid uid : Nat) :
    (reservePlotAsAdmin db pid uid).1.isSuccess = true ∨
    (reservePlotAsAdmin db pid uid).2 = db := by
  unfold reservePlotAsAdmin
  dsimp only
  repeat' split
  all_goals first | exact Or.inl rfl | exact Or.inr rfl

theorem atomic_cancelReservation (db : DB) (rid uid : Nat) :
    (cancelReservation db rid uid).1.isSuccess = true ∨
    (cancelReservation db rid uid).2 = db := by
  unfold cancelReservation
  dsimp only
  repeat' split
  all_goals first | exact Or.inl rfl | exact Or.inr rfl

theorem atomic_approveReservationAsAdminV (db : DB) (rid : Nat) :
    (approveReservationAsAdminV db rid).1.isSuccess = true ∨
    (approveReservationAsAdminV db rid).2 = db := by
  unfold approveReservationAsAdminV
  dsimp only
  repeat' split
  all_goals first | exact Or.inl rfl | exact Or.inr rfl

theorem atomic_rejectReservationAsAdminV (db : DB) (rid : Nat) :
    (rejectReservationAsAdminV db rid).1.isSuccess = true ∨
    (rejectReservationAsAdminV db rid).2 = db := by
  unfold rejectReservationAsAdminV
  dsimp only
  repeat' split
  all_goals first | exact Or.inl rfl | exact Or.inr rfl

theorem atomic_cancelReservationAsAdminV (db : DB) (rid : Nat) :
    (cancelReservationAsAdminV db rid).1.isSuccess = true ∨
    (cancelReservationAsAdminV db rid).2 = db := by
  unfold cancelReservationAsAdminV
  dsimp only
  repeat' split
  all_goals first | exact Or.inl rfl | exact Or.inr rfl

theorem atomic_approveReservationAsAdminP (db : DB) (rid : Nat) :
    (approveReservationAsAdminP db rid).1.isSuccess = true ∨
    (approveReservationAsAdminP db rid).2 = db := by
  unfold approveReservationAsAdminP
  dsimp only
  repeat' split
  all_goals first | exact Or.inl rfl | exact Or.inr rfl

theorem atomic_addBurialRecordA (db : DB) (pid : Nat) (nm : String)
    (act : Bool) :
    (addBurialRecordA db pid nm act).1.isSuccess = true ∨
    (addBurialRecordA db pid nm act).2 = db := by
  unfold addBurialRecordA
  dsimp only
  repeat' split
  all_goals first | exact Or.inl rfl | exact Or.inr rfl

theorem atomic_addBurialRecordB (db : DB) (pid : Nat) (nm : String)
    (act : Bool) :
    (addBurialRecordB db pid nm act).1.isSuccess = true ∨
    (addBurialRecordB db pid nm act).2 = db := by
  unfold addBurialRecordB
  dsimp only
  repeat' split
  all_goals first | exact Or.inl rfl | exact Or.inr rfl

theorem atomic_editBurialRecord (db : DB) (gid : Nat) (pid : Option Nat)
    (nm : Option String) (act : Option Bool) :
    (editBurialRecord db gid pid nm act).resp.isSuccess = true ∨
    (editBurialRecord db gid pid nm act).db = db := by
  unfold editBurialRecord editApply
  dsimp only
  repeat' split
  all_goals first | exact Or.inl rfl | exact Or.inr rfl

theorem atomic_deleteBurialRecord (db : DB) (gid : Nat) :
    (deleteBurialRecord db gid).1.isSuccess = true ∨
    (deleteBurialRecord db gid).2 = db := by
  unfold deleteBurialRecord
  dsimp only
  repeat' split
  all_goals first | exact Or.inl rfl | exact Or.inr rfl

theorem atomic_confirmBurialRequestAsAdmin (db : DB) (bid : Nat) :
    (confirmBurialRequestAsAdmin db bid).1.isSuccess = true ∨
    (confirmBurialRequestAsAdmin db bid).2 = db := by
  unfold confirmBurialRequestAsAdmin
  dsimp only
  repeat' split
  all_goals first | exact Or.inl rfl | exact Or.inr rfl

/-- Claim C7 (amended): every operation that opens a transaction
(reserve — both variants —, cancel, admin approve/reject/cancel, burial
record add/edit/delete, burial-request confirm) is atomic: whenever it
returns a non-success response, the data store is completely unchanged
(full rollback, no partial application). The payment-proof endpoints
(upload receipt, validate/approve/accept payment) mutate outside any lock
or transaction, so their checks are not re-verified at mutation time, as
the counterexample shows. -/
theorem C7_transactional_failure_rolls_back :
    (∀ (db : DB) (pid uid : Nat),
      (reservePlot db pid uid).1.isSuccess = false →
      (reservePlot db pid uid).2 = db) ∧
    (∀ (db : DB) (pid uid : Nat),
      (reservePlotAsAdmin db pid uid).1.isSuccess = false →
      (reservePlotAsAdmin db pid uid).2 = db) ∧
    (∀ (db : DB) (rid uid : Nat),
      (cancelReservation db rid uid).1.isSuccess = false →
      (cancelReservation db rid uid).2 = db) ∧
    (∀ (db : DB) (rid : Nat),
      (approveReservationAsAdminV db rid).1.isSuccess = false →
      (approveReservationAsAdminV db rid).2 = db) ∧
    (∀ (db : DB) (rid : Nat),
      (rejectReservationAsAdminV db rid).1.isSuccess = false →
      (rejectReservationAsAdminV db rid).2 = db) ∧
    (∀ (db : DB) (rid : Nat),
      (cancelReservationAsAdminV db rid).1.isSuccess = false →
      (cancelReservationAsAdminV db rid).2 = db) ∧
    (∀ (db : DB) (rid : Nat),
      (approveReservationAsAdminP db rid).1.isSuccess = false →
      (approveReservationAsAdminP db rid).2 = db) ∧
    (∀ (db : DB) (pid : Nat) (nm : String) (act : Bool),
      (addBurialRecordA db pid nm act).1.isSuccess = false →
      (addBurialRecordA db pid nm act).2 = db) ∧
    (∀ (db : DB) (pid : Nat) (nm : String) (act : Bool),
      (addBurialRecordB db pid nm act).1.isSuccess = false →
      (addBurialRecordB db pid nm act).2 = db) ∧
    (∀ (db : DB) (gid : Nat) (pid : Option Nat) (nm : Option String)
        (act : Option Bool),
      (editBurialRecord db gid pid nm act).resp.isSuccess = false →
      (editBurialRecord db gid pid nm act).db = db) ∧
    (∀ (db : DB) (gid : Nat),
      (deleteBurialRecord db gid).1.isSuccess = false →
      (deleteBurialRecord db gid).2 = db) ∧
    (∀ (db : DB) (bid : Nat),
      (confirmBurialRequestAsAdmin db bid).1.isSuccess = false →
      (confirmBurialRequestAsAdmin db bid).2 = db) := by
  refine ⟨?_, ?_, ?_, ?_, ?_, ?_, ?_, ?_, ?_, ?_, ?_, ?_⟩
  · intro db pid uid h
    rcases atomic_reservePlot db pid uid with hs | he
    · rw [hs] at h; cases h
    · exact he
  · intro db pid uid h
    rcases atomic_reservePlotAsAdmin db pid uid with hs | he
    · rw [hs] at h; cases h
    · exact he
  · intro db rid uid h
    rcases atomic_cancelReservation db rid uid with hs | he
    · rw [hs] at h; cases h
    · exact he
  · intro db rid h
    rcases atomic_approveReservationAsAdminV db rid with hs | he
    · rw [hs] at h; cases h
    · exact he
  · intro db rid h
    rcases atomic_rejectReservationAsAdminV db rid with hs | he
    · rw [hs] at h; cases h
    · exact he
  · intro db rid h
    rcases atomic_cancelReservationAsAdminV db rid with hs | he
    · rw [hs] at h; cases h
    · exact he
  · intro db rid h
    rcases atomic_approveReservationAsAdminP db rid with hs | he
    · rw [hs] at h; cases h
    · exact he
  · intro db pid nm act h
    rcases atomic_addBurialRecordA db pid nm act with hs | he
    · rw [hs] at h; cases h
    · exact he
  · intro db pid nm act h
    rcases atomic_addBurialRecordB db pid nm act with hs | he
    · rw [hs] at h; cases h
    · exact he
  · intro db gid pid nm act h
    rcases atomic_editBurialRecord db gid pid nm act with hs | he
    · rw [hs] at h; cases h
    · exact he
  · intro db gid h
    rcases atomic_deleteBurialRecord db gid with hs | he
    · rw [hs] at h; cases h
    · exact he
  · intro db bid h
    rcases atomic_confirmBurialRequestAsAdmin db bid with hs | he
    · rw [hs] at h; cases h
    · exact he

/-- Witness for C7 (amended): a failing reserve on an occupied plot
changes nothing, evaluated on a concrete store. -/
theorem C7_transactional_failure_rolls_back_witness :
    (reservePlot dbC9 1 10).2 = dbC9 :=
  C7_transactional_failure_rolls_back.1 dbC9 1 10 (by decide)

/-! ## Claim C8 -/

theorem graveUpdate_id (i : Nat) (pid : Option Nat) (nm : Option String)
    (act : Option Bool) (g : Grave) :
    (graveUpdate i pid nm act g).id = g.id := by
  unfold graveUpdate
  split <;> rfl

theorem graveUpdate_of_ne (i : Nat) (pid : Option Nat) (nm : Option String)
    (act : Option Bool) {g : Grave} (h : ¬ g.id = i) :
    graveUpdate i pid nm act g = g := by
  unfold graveUpdate
  rw [if_neg h]

theorem graveUpdate_plot_id_of_eq (i : Nat) (newPid : Nat)
    (nm : Option String) (act : Option Bool) {g : Grave} (h : g.id = i) :
    (graveUpdate i (some newPid) nm act g).plot_id = newPid := by
  unfold graveUpdate
  rw [if_pos h]
  rfl

theorem plotHasAnyGrave_false_iff (l : List Grave) (pid : Nat) :
    plotHasAnyGrave l pid = false ↔ ∀ g ∈ l, ¬ g.plot_id = pid := by
  unfold plotHasAnyGrave
  constructor
  · intro h g hg hgp
    have hmem : g ∈ l.filter (fun g => g.plot_id == pid) := by
      rw [List.mem_filter]
      exact ⟨hg, by simp [hgp]⟩
    have hpos : 0 < (l.filter (fun g => g.plot_id == pid)).length :=
      List.length_pos.mpr (List.ne_nil_of_mem hmem)
    simp [hpos] at h
  · intro h
    have hfe : l.filter (fun g => g.plot_id == pid) = [] := by
      rw [List.filter_eq_nil_iff]
      intro g hg
      simp [h g hg]
    simp [hfe]

theorem plotHasAnyGrave_true_of_mem {l : List Grave} {pid : Nat} {g : Grave}
    (hg : g ∈ l) (hp : g.plot_id = pid) : plotHasAnyGrave l pid = true := by
  unfold plotHasAnyGrave
  have hmem : g ∈ l.filter (fun g => g.plot_id == pid) := by
    rw [List.mem_filter]
    exact ⟨hg, by simp [hp]⟩
  simp [List.length_pos.mpr (List.ne_nil_of_mem hmem)]

def dbC8 : DB :=
  { plots := [⟨1, "occupied"⟩, ⟨2, "available"⟩],
    reservations := [],
    graves := [⟨1, 1, "Active Person", true⟩, ⟨2, 1, "Inactive Person", false⟩],
    requests := [], users := [], nextResId := 1, nextGraveId := 3 }

def dbC8r : DB :=
  { plots := [⟨1, "available"⟩, ⟨2, "occupied"⟩],
    reservations := [], graves := [⟨1, 2, "Someone", true⟩],
    requests := [], users := [], nextResId := 1, nextGraveId := 2 }

/-- Counterexample to C8 as stated, in two parts. (i) Lock order: moving a
record from plot 1 to plot 2 locks [2, 1] while moving from plot 2 to
plot 1 locks [1, 2] — the new plot is always locked first, so there is no
fixed total order on the two rows. (ii) Old-plot re-evaluation: after
moving the only ACTIVE record off plot 1, an inactive record remains
there; the claim says plot 1 becomes available ("no remaining active
Burial Record references it"), but `plotHasAnyGrave` counts inactive
records too, so plot 1 stays `occupied` although no active record
references it. -/
theorem C8_counterexample :
    (editBurialRecord dbC8 1 (some 2) none none).locks = [2, 1] ∧
    (editBurialRecord dbC8r 1 (some 1) none none).locks = [1, 2] ∧
    (editBurialRecord dbC8 1 (some 2) none none).resp.isSuccess = true ∧
    ((editBurialRecord dbC8 1 (some 2) none none).db.graves.any
      (fun g => g.plot_id == 1 && g.is_active)) = false ∧
    ((findPlot (editBurialRecord dbC8 1 (some 2) none none).db 1).map
      Plot.status = some "occupied") := by decide

/-- Claim C8 (amended): when editBurialRecord changes a record's plot_id,
it locks the NEW Plot row first and then the old one (the order follows
the direction of the move, not a fixed total order); it fails with
Conflict if the new Plot is occupied; on success it sets the new Plot
occupied and re-evaluates the old Plot, setting it available only when no
Burial Record AT ALL — active or inactive — remains on it (otherwise the
old Plot keeps its previous status). -/
theorem C8_editBurialRecord_move (db : DB) (gid newPid : Nat)
    (nm : Option String) (act : Option Bool) (cur : Grave) (np : Plot)
    (hg : findGrave db gid = some cur)
    (hmove : ¬ cur.plot_id = newPid)
    (hp : findPlot db newPid = some np) :
    (slower np.status = "occupied" →
      editBurialRecord db gid (some newPid) nm act =
        ⟨.conflict "New plot is already occupied", db, [newPid]⟩) ∧
    (¬ slower np.status = "occupied" →
      (editBurialRecord db gid (some newPid) nm act).resp = .ok "updated" ∧
      (editBurialRecord db gid (some newPid) nm act).locks =
        [newPid, cur.plot_id] ∧
      (∀ q ∈ (editBurialRecord db gid (some newPid) nm act).db.plots,
        q.id = newPid → q.status = "occupied") ∧
      ((∀ g ∈ db.graves, ¬ g.id = gid → ¬ g.plot_id = cur.plot_id) →
        ∀ q ∈ (editBurialRecord db gid (some newPid) nm act).db.plots,
          q.id = cur.plot_id → q.status = "available") ∧
      ((∃ g ∈ db.graves, ¬ g.id = gid ∧ g.plot_id = cur.plot_id) →
        ∀ q ∈ (editBurialRecord db gid (some newPid) nm act).db.plots,
          q.id = cur.plot_id →
          ∃ q0 ∈ db.plots, q0.id = cur.plot_id ∧ q.status = q0.status)) := by
  have hcurid : cur.id = gid := (findGrave_mem hg).2
  have hfinal : (graveUpdate gid (some newPid) nm act cur).plot_id = newPid :=
    graveUpdate_plot_id_of_eq gid newPid nm act hcurid
  constructor
  · intro hocc
    unfold editBurialRecord
    rw [hg]
    dsimp only
    rw [if_pos hmove, hp]
    dsimp only
    rw [if_pos hocc]
  · intro hocc
    unfold editBurialRecord
    rw [hg]
    dsimp only
    rw [if_pos hmove, hp]
    dsimp only
    rw [if_neg hocc]
    unfold editApply
    dsimp only [setPlotStatus]
    rw [hfinal]
    refine ⟨rfl, rfl, ?_, ?_, ?_⟩
    · intro q hq hqid
      split at hq
      case isTrue hcond =>
        simp only [List.map_map, List.mem_map, Function.comp] at hq
        obtain ⟨a, _ha, hae⟩ := hq
        by_cases haid : a.id = newPid
        · rw [← hae]
          simp only [if_pos haid]
          rw [if_neg (show ¬ a.id = cur.plot_id by
            rw [haid]; exact fun hcontra => hmove hcontra.symm)]
        · exfalso
          rw [← hae] at hqid
          simp only [if_neg haid] at hqid
          have haid2 : a.id = newPid := by
            split at hqid <;> exact hqid
          exact haid haid2
      case isFalse hcond =>
        simp only [List.mem_map] at hq
        obtain ⟨a, _ha, hae⟩ := hq
        by_cases haid : a.id = newPid
        · rw [← hae]
          simp only [if_pos haid]
        · exfalso
          rw [← hae] at hqid
          simp only [if_neg haid] at hqid
          exact haid hqid
    · intro hnone q hq hqid
      have hstill : plotHasAnyGrave
          (List.map (graveUpdate gid (some newPid) nm act) db.graves)
          cur.plot_id = false := by
        rw [plotHasAnyGrave_false_iff]
        intro g2 hg2
        simp only [List.mem_map] at hg2
        obtain ⟨g0, hg0, rfl⟩ := hg2
        by_cases hgid : g0.id = gid
        · rw [graveUpdate_plot_id_of_eq gid newPid nm act hgid]
          exact fun hcontra => hmove hcontra.symm
        · rw [graveUpdate_of_ne gid (some newPid) nm act hgid]
          exact hnone g0 hg0 hgid
      split at hq
      case isFalse hcond =>
        refine absurd ⟨hmove, ?_⟩ hcond
        intro htrue
        rw [hstill] at htrue
        exact Bool.false_ne_true htrue
      case isTrue hcond =>
        simp only [List.map_map, List.mem_map, Function.comp] at hq
        obtain ⟨a, _ha, hae⟩ := hq
        by_cases haid : a.id = newPid
        · exfalso
          rw [← hae] at hqid
          simp only [if_pos haid] at hqid
          have haold : a.id = cur.plot_id := by
            split at hqid <;> exact hqid
          rw [haold] at haid
          exact hmove haid
        · rw [← hae]
          simp only [if_neg haid]
          rw [← hae] at hqid
          simp only [if_neg haid] at hqid
          have haold : a.id = cur.plot_id := by
            split at hqid <;> exact hqid
          rw [if_pos haold]
    · intro hsome q hq hqid
      obtain ⟨g1, hg1, hg1id, hg1p⟩ := hsome
      have hstill : plotHasAnyGrave
          (List.map (graveUpdate gid (some newPid) nm act) db.graves)
          cur.plot_id = true := by
        refine plotHasAnyGrave_true_of_mem (List.mem_map_of_mem _ hg1) ?_
        rw [graveUpdate_of_ne gid (some newPid) nm act hg1id]
        exact hg1p
      split at hq
      case isTrue hcond =>
        exact absurd hstill hcond.2
      case isFalse hcond =>
        simp only [List.mem_map] at hq
        obtain ⟨a, ha, hae⟩ := hq
        by_cases haid : a.id = newPid
        · exfalso
          rw [← hae] at hqid
          simp only [if_pos haid] at hqid
          rw [hqid] at haid
          exact hmove haid
        · rw [← hae] at hqid ⊢
          simp only [if_neg haid] at hqid ⊢
          exact ⟨a, ha, hqid, rfl⟩

/-- Witness for C8 (amended): the successful move on `dbC8` with an
inactive record remaining on the old plot. -/
theorem C8_editBurialRecord_move_witness :
    (editBurialRecord dbC8 1 (some 2) none none).resp = .ok "updated" ∧
    (editBurialRecord dbC8 1 (some 2) none none).locks = [2, 1] := by
  have h := (C8_editBurialRecord_move dbC8 1 2 none none
    ⟨1, 1, "Active Person", true⟩ ⟨2, "available"⟩
    (by decide) (by decide) (by decide)).2 (by decide)
  exact ⟨h.1, h.2.1⟩

/-! ## Claim C1 -/

/-- The invariant exactly as claim C1 states it: a plot is `occupied` iff
at least one ACTIVE (is_active = true) burial record references it. -/
def activeOccInv (db : DB) : Bool :=
  db.plots.all (fun p =>
    (p.status == "occupied") ==
      db.graves.any (fun g => g.plot_id == p.id && g.is_active))

/-- The invariant the code actually maintains on the burial-record paths:
a plot is `occupied` iff at least one burial record — active or not —
references it. -/
def occInv (db : DB) : Bool :=
  db.plots.all (fun p =>
    (p.status == "occupied") == db.graves.any (fun g => g.plot_id == p.id))

/-- Propositional form of `occInv`. -/
def occInvP (db : DB) : Prop :=
  ∀ p ∈ db.plots, (p.status = "occupied" ↔ ∃ g ∈ db.graves, g.plot_id = p.id)

theorem occInv_iff (db : DB) : occInv db = true ↔ occInvP db := by
  unfold occInv occInvP
  rw [List.all_eq_true]
  constructor
  · intro h p hp
    have hb := h p hp
    rw [beq_iff_eq, Bool.eq_iff_iff] at hb
    simpa using hb
  · intro h p hp
    rw [beq_iff_eq, Bool.eq_iff_iff]
    simpa using h p hp

/-- Grave rows have pairwise distinct ids, all below the id sequence. -/
def GraveKeysWF (db : DB) : Prop :=
  (db.graves.map Grave.id).Nodup ∧ ∀ g ∈ db.graves, g.id < db.nextGraveId

/-- The consistency bundle carried through the burial-record operations. -/
def OccCons (db : DB) : Prop := GraveKeysWF db ∧ occInvP db

/-- One step of the system: any of the modelled state-changing operations,
with arbitrary arguments. -/
inductive Step : DB → DB → Prop where
  | reserve (db : DB) (pid uid : Nat) :
      Step db (reservePlot db pid uid).2
  | reserveAdmin (db : DB) (pid uid : Nat) :
      Step db (reservePlotAsAdmin db pid uid).2
  | cancel (db : DB) (rid uid : Nat) :
      Step db (cancelReservation db rid uid).2
  | uploadReceipt (db : DB) (rid uid : Nat) (url : String) :
      Step db (uploadReservationReceipt db rid uid url).2
  | approveV (db : DB) (rid : Nat) :
      Step db (approveReservationAsAdminV db rid).2
  | rejectV (db : DB) (rid : Nat) :
      Step db (rejectReservationAsAdminV db rid).2
  | cancelV (db : DB) (rid : Nat) :
      Step db (cancelReservationAsAdminV db rid).2
  | acceptPay (db : DB) (rid : Nat) :
      Step db (acceptPaymentAsAdmin db rid).2
  | validatePay (db : DB) (rid : Nat) :
      Step db (validatePaymentAsAdmin db rid).2
  | approvePay (db : DB) (rid : Nat) :
      Step db (approvePaymentAsAdmin db rid).2
  | approveP (db : DB) (rid : Nat) :
      Step db (approveReservationAsAdminP db rid).2
  | addBurialA (db : DB) (pid : Nat) (nm : String) (act : Bool) :
      Step db (addBurialRecordA db pid nm act).2
  | addBurialB (db : DB) (pid : Nat) (nm : String) (act : Bool) :
      Step db (addBurialRecordB db pid nm act).2
  | editBurial (db : DB) (gid : Nat) (pid : Option Nat) (nm : Option String)
      (act : Option Bool) :
      Step db (editBurialRecord db gid pid nm act).db
  | delBurial (db : DB) (gid : Nat) :
      Step db (deleteBurialRecord db gid).2
  | confirmBurial (db : DB) (bid : Nat) :
      Step db (confirmBurialRequestAsAdmin db bid).2

/-- Reachability by arbitrary system operations. -/
def SysReach : DB → DB → Prop := Relation.ReflTransGen Step

/-- One step of the Burial Record Manager alone. -/
inductive BStep : DB → DB → Prop where
  | addA (db : DB) (pid : Nat) (nm : String) (act : Bool) :
      BStep db (addBurialRecordA db pid nm act).2
  | addB (db : DB) (pid : Nat) (nm : String) (act : Bool) :
      BStep db (addBurialRecordB db pid nm act).2
  | edit (db : DB) (gid : Nat) (pid : Option Nat) (nm : Option String)
      (act : Option Bool) :
      BStep db (editBurialRecord db gid pid nm act).db
  | del (db : DB) (gid : Nat) :
      BStep db (deleteBurialRecord db gid).2
  | confirm (db : DB) (bid : Nat) :
      BStep db (confirmBurialRequestAsAdmin db bid).2

/-- Reachability by Burial Record Manager operations alone. -/
def BReach : DB → DB → Prop := Relation.ReflTransGen BStep

def dbC1 : DB :=
  { plots := [⟨1, "available"⟩], reservations := [], graves := [],
    requests := [], users := [⟨10, "visitor"⟩],
    nextResId := 1, nextGraveId := 1 }

/-- A consistent store whose plot 1 is occupied by a grave, with the
completed reservation that produced it. -/
def dbC1b : DB :=
  { plots := [⟨1, "occupied"⟩],
    reservations := [⟨1, 1, 10, "completed", "approved", "r.png"⟩],
    graves := [⟨1, 1, "Resting Person", true⟩],
    requests := [], users := [⟨10, "visitor"⟩],
    nextResId := 2, nextGraveId := 2 }

theorem plotHasAnyGrave_true_iff (l : List Grave) (pid : Nat) :
    plotHasAnyGrave l pid = true ↔ ∃ g ∈ l, g.plot_id = pid := by
  constructor
  · intro h
    by_contra hne
    push_neg at hne
    have hf := (plotHasAnyGrave_false_iff l pid).mpr hne
    rw [hf] at h
    exact Bool.false_ne_true h
  · rintro ⟨g, hg, hp⟩
    exact plotHasAnyGrave_true_of_mem hg hp

theorem OccCons_congr {dbA dbB : DB} (h : OccCons dbA)
    (hp : dbB.plots = dbA.plots) (hg : dbB.graves = dbA.graves)
    (hn : dbB.nextGraveId = dbA.nextGraveId) : OccCons dbB := by
  obtain ⟨⟨h1, h2⟩, h3⟩ := h
  unfold OccCons GraveKeysWF occInvP
  rw [hp, hg, hn]
  exact ⟨⟨h1, h2⟩, h3⟩

/-- Inserting a fresh grave and marking its plot occupied preserves the
consistency bundle. -/
theorem OccCons_insert_occupy {db : DB} (h : OccCons db) (g : Grave)
    (hid : g.id = db.nextGraveId) :
    OccCons (setPlotStatus
      { db with graves := db.graves ++ [g],
                nextGraveId := db.nextGraveId + 1 }
      g.plot_id "occupied") := by
  obtain ⟨⟨hnd, hbd⟩, hinv⟩ := h
  refine ⟨⟨?_, ?_⟩, ?_⟩
  · show ((db.graves ++ [g]).map Grave.id).Nodup
    rw [List.map_append]
    refine List.Nodup.append hnd (List.nodup_singleton _) ?_
    intro a ha hb
    simp only [List.map_cons, List.map_nil, List.mem_singleton] at hb
    subst hb
    simp only [List.mem_map] at ha
    obtain ⟨g0, hg0, hg0id⟩ := ha
    have := hbd g0 hg0
    rw [hg0id, hid] at this
    exact absurd this (lt_irrefl _)
  · show ∀ g2 ∈ db.graves ++ [g], g2.id < db.nextGraveId + 1
    intro g2 hg2
    rcases List.mem_append.mp hg2 with hg2 | hg2
    · exact Nat.lt_succ_of_lt (hbd g2 hg2)
    · rw [List.mem_singleton.mp hg2, hid]
      exact Nat.lt_succ_self _
  · intro q hq
    dsimp only [setPlotStatus] at hq
    simp only [List.mem_map] at hq
    obtain ⟨a, ha, hae⟩ := hq
    by_cases haid : a.id = g.plot_id
    · rw [← hae]
      simp only [if_pos haid]
      refine iff_of_true (by trivial) ⟨g, ?_, ?_⟩
      · exact List.mem_append_right _ (List.mem_singleton_self g)
      · rw [haid]
    · rw [← hae]
      simp only [if_neg haid]
      constructor
      · intro hocc
        obtain ⟨g0, hg0, hg0p⟩ := (hinv a ha).mp hocc
        exact ⟨g0, List.mem_append_left _ hg0, hg0p⟩
      · rintro ⟨g2, hg2, hg2p⟩
        rcases List.mem_append.mp hg2 with hg2 | hg2
        · exact (hinv a ha).mpr ⟨g2, hg2, hg2p⟩
        · exfalso
          rw [List.mem_singleton.mp hg2] at hg2p
          exact haid hg2p.symm

theorem OccCons_addA (db : DB) (pid : Nat) (nm : String) (act : Bool)
    (h : OccCons db) : OccCons (addBurialRecordA db pid nm act).2 := by
  unfold addBurialRecordA
  dsimp only
  repeat' split
  all_goals first
    | exact h
    | exact OccCons_insert_occupy h ⟨db.nextGraveId, pid, strim nm, act⟩ rfl

theorem OccCons_addB (db : DB) (pid : Nat) (nm : String) (act : Bool)
    (h : OccCons db) : OccCons (addBurialRecordB db pid nm act).2 := by
  unfold addBurialRecordB
  dsimp only
  repeat' split
  all_goals first
    | exact h
    | exact OccCons_insert_occupy h ⟨db.nextGraveId, pid, strim nm, act⟩ rfl

theorem OccCons_confirm (db : DB) (bid : Nat) (h : OccCons db) :
    OccCons (confirmBurialRequestAsAdmin db bid).2 := by
  unfold confirmBurialRequestAsAdmin
  dsimp only
  repeat' split
  all_goals first
    | exact h
    | exact OccCons_congr
        (OccCons_insert_occupy h
          ⟨db.nextGraveId, _, _, true⟩ rfl) rfl rfl rfl

theorem OccCons_del (db : DB) (gid : Nat) (h : OccCons db) :
    OccCons (deleteBurialRecord db gid).2 := by
  unfold deleteBurialRecord
  cases hfind : findGrave db gid with
  | none => exact h
  | some cur =>
    obtain ⟨hcurmem, hcurid⟩ := findGrave_mem hfind
    obtain ⟨⟨hnd, hbd⟩, hinv⟩ := h
    have huniq : ∀ g ∈ db.graves, g.id = gid → g = cur := by
      intro g hg hgid
      exact List.inj_on_of_nodup_map hnd hg hcurmem
        (by rw [hgid, hcurid])
    have hmemf : ∀ g : Grave,
        g ∈ db.graves.filter (fun g => g.id != gid) ↔
        g ∈ db.graves ∧ ¬ g.id = gid := by
      intro g
      rw [List.mem_filter, bne_iff_ne]
    have hkeys : GraveKeysWF
        { db with graves := db.graves.filter (fun g => g.id != gid) } := by
      constructor
      · exact List.Nodup.sublist
          (List.Sublist.map Grave.id (List.filter_sublist _)) hnd
      · intro g hg
        exact hbd g ((hmemf g).mp hg).1
    dsimp only
    split
    case isTrue hno =>
      have hfalse : plotHasAnyGrave
          (db.graves.filter (fun g => g.id != gid)) cur.plot_id = false := by
        cases hb : plotHasAnyGrave
            (db.graves.filter (fun g => g.id != gid)) cur.plot_id
        · rfl
        · exact absurd hb hno
      have hnone := (plotHasAnyGrave_false_iff _ _).mp hfalse
      refine ⟨hkeys, ?_⟩
      intro q hq
      dsimp only [setPlotStatus] at hq
      simp only [List.mem_map] at hq
      obtain ⟨a, ha, hae⟩ := hq
      by_cases haid : a.id = cur.plot_id
      · rw [← hae]
        simp only [if_pos haid]
        refine iff_of_false (by decide) ?_
        rintro ⟨g2, hg2, hg2p⟩
        exact hnone g2 hg2 (by rw [hg2p, haid])
      · rw [← hae]
        simp only [if_neg haid]
        constructor
        · intro hocc
          obtain ⟨g0, hg0, hg0p⟩ := (hinv a ha).mp hocc
          refine ⟨g0, (hmemf g0).mpr ⟨hg0, ?_⟩, hg0p⟩
          intro hgid
          rw [huniq g0 hg0 hgid] at hg0p
          exact haid hg0p.symm
        · rintro ⟨g2, hg2, hg2p⟩
          exact (hinv a ha).mpr ⟨g2, ((hmemf g2).mp hg2).1, hg2p⟩
    case isFalse hyes =>
      have htrue : plotHasAnyGrave
          (db.graves.filter (fun g => g.id != gid)) cur.plot_id = true := by
        cases hb : plotHasAnyGrave
            (db.graves.filter (fun g => g.id != gid)) cur.plot_id
        · exact absurd (fun ht => Bool.false_ne_true (hb ▸ ht)) hyes
        · rfl
      refine ⟨hkeys, ?_⟩
      intro q hq
      by_cases haid : q.id = cur.plot_id
      · refine iff_of_true ?_ ?_
        · exact (hinv q hq).mpr ⟨cur, hcurmem, by rw [haid]⟩
        · obtain ⟨g2, hg2, hg2p⟩ := (plotHasAnyGrave_true_iff _ _).mp htrue
          exact ⟨g2, hg2, by rw [hg2p, haid]⟩
      · constructor
        · intro hocc
          obtain ⟨g0, hg0, hg0p⟩ := (hinv q hq).mp hocc
          refine ⟨g0, (hmemf g0).mpr ⟨hg0, ?_⟩, hg0p⟩
          intro hgid
          rw [huniq g0 hg0 hgid] at hg0p
          exact haid hg0p.symm
        · rintro ⟨g2, hg2, hg2p⟩
          exact (hinv q hq).mpr ⟨g2, ((hmemf g2).mp hg2).1, hg2p⟩

theorem OccCons_editApply (db : DB) (gid : Nat) (pid : Option Nat)
    (nm : Option String) (act : Option Bool) (cur : Grave) (locks : List Nat)
    (hfind : findGrave db gid = some cur) (h : OccCons db) :
    OccCons (editApply db gid pid nm act cur locks).db := by
  obtain ⟨hcurmem, hcurid⟩ := findGrave_mem hfind
  obtain ⟨⟨hnd, hbd⟩, hinv⟩ := h
  have huniq : ∀ g ∈ db.graves, g.id = gid → g = cur := by
    intro g hg hgid
    exact List.inj_on_of_nodup_map hnd hg hcurmem (by rw [hgid, hcurid])
  have hmem_iff : ∀ t : Nat,
      (∃ g2 ∈ db.graves.map (graveUpdate gid pid nm act), g2.plot_id = t) ↔
      ((∃ g ∈ db.graves, ¬ g.id = gid ∧ g.plot_id = t) ∨
        (graveUpdate gid pid nm act cur).plot_id = t) := by
    intro t
    constructor
    · rintro ⟨g2, hg2, ht⟩
      rw [List.mem_map] at hg2
      obtain ⟨g0, hg0, rfl⟩ := hg2
      by_cases hgid : g0.id = gid
      · right
        rw [huniq g0 hg0 hgid] at ht
        exact ht
      · left
        rw [graveUpdate_of_ne gid pid nm act hgid] at ht
        exact ⟨g0, hg0, hgid, ht⟩
    · rintro (⟨g, hg, hgid, ht⟩ | ht)
      · refine ⟨graveUpdate gid pid nm act g, List.mem_map_of_mem _ hg, ?_⟩
        rw [graveUpdate_of_ne gid pid nm act hgid]
        exact ht
      · exact ⟨graveUpdate gid pid nm act cur,
          List.mem_map_of_mem _ hcurmem, ht⟩
  have hkeys : GraveKeysWF
      { db with graves := db.graves.map (graveUpdate gid pid nm act) } := by
    constructor
    · show ((db.graves.map (graveUpdate gid pid nm act)).map Grave.id).Nodup
      rw [List.map_map]
      have hco : db.graves.map (Grave.id ∘ graveUpdate gid pid nm act) =
          db.graves.map Grave.id := by
        apply List.map_congr_left
        intro g _hg
        exact graveUpdate_id gid pid nm act g
      rw [hco]
      exact hnd
    · intro g2 hg2
      rw [List.mem_map] at hg2
      obtain ⟨g0, hg0, rfl⟩ := hg2
      rw [graveUpdate_id]
      exact hbd g0 hg0
  unfold editApply
  dsimp only [setPlotStatus]
  split
  case isTrue hcond =>
    refine ⟨⟨hkeys.1, hkeys.2⟩, ?_⟩
    have hfalse : plotHasAnyGrave
        (List.map (graveUpdate gid pid nm act) db.graves) cur.plot_id
        = false := by
      cases hb : plotHasAnyGrave
          (List.map (graveUpdate gid pid nm act) db.graves) cur.plot_id
      · rfl
      · exact absurd hb hcond.2
    have hnone := (plotHasAnyGrave_false_iff _ _).mp hfalse
    intro q hq
    simp only [List.map_map, List.mem_map, Function.comp] at hq
    obtain ⟨a, ha, hae⟩ := hq
    by_cases h1 : a.id = (graveUpdate gid pid nm act cur).plot_id
    · rw [← hae, if_pos h1]
      rw [if_neg (show ¬ a.id = cur.plot_id by
        rw [h1]; exact fun hc => hcond.1 hc.symm)]
      exact iff_of_true rfl ((hmem_iff _).mpr (Or.inr h1.symm))
    · rw [← hae, if_neg h1]
      by_cases h2 : a.id = cur.plot_id
      · rw [if_pos h2]
        refine iff_of_false
          (show ¬ ("available" : String) = "occupied" by decide) ?_
        rintro ⟨g2, hg2, hg2p⟩
        refine hnone g2 hg2 ?_
        rw [hg2p]
        exact h2
      · rw [if_neg h2]
        constructor
        · intro hocc
          obtain ⟨g0, hg0, hg0p⟩ := (hinv a ha).mp hocc
          refine (hmem_iff a.id).mpr (Or.inl ⟨g0, hg0, ?_, hg0p⟩)
          intro hgid
          rw [huniq g0 hg0 hgid] at hg0p
          exact h2 hg0p.symm
        · rintro ⟨g2, hg2, hg2p⟩
          rcases (hmem_iff a.id).mp ⟨g2, hg2, hg2p⟩ with
            ⟨g, hg, _hgid, hgp⟩ | hfp
          · exact (hinv a ha).mpr ⟨g, hg, hgp⟩
          · exact absurd hfp.symm h1
  case isFalse hcond =>
    refine ⟨⟨hkeys.1, hkeys.2⟩, ?_⟩
    intro q hq
    simp only [List.mem_map] at hq
    obtain ⟨a, ha, hae⟩ := hq
    by_cases h1 : a.id = (graveUpdate gid pid nm act cur).plot_id
    · rw [← hae, if_pos h1]
      exact iff_of_true rfl ((hmem_iff _).mpr (Or.inr h1.symm))
    · rw [← hae, if_neg h1]
      constructor
      · intro hocc
        obtain ⟨g0, hg0, hg0p⟩ := (hinv a ha).mp hocc
        by_cases hgid : g0.id = gid
        · have hgc : g0 = cur := huniq g0 hg0 hgid
          rw [hgc] at hg0p
          have hfin : cur.plot_id ≠
              (graveUpdate gid pid nm act cur).plot_id := by
            rw [hg0p]
            exact h1
          have htrue : plotHasAnyGrave
              (List.map (graveUpdate gid pid nm act) db.graves) cur.plot_id
              = true := by
            cases hb : plotHasAnyGrave
                (List.map (graveUpdate gid pid nm act) db.graves) cur.plot_id
            · exact absurd
                ⟨hfin, fun ht => Bool.false_ne_true (hb ▸ ht)⟩ hcond
            · rfl
          obtain ⟨g2, hg2, hg2p⟩ := (plotHasAnyGrave_true_iff _ _).mp htrue
          refine ⟨g2, hg2, ?_⟩
          rw [hg2p]
          exact hg0p
        · exact (hmem_iff _).mpr (Or.inl ⟨g0, hg0, hgid, hg0p⟩)
      · rintro ⟨g2, hg2, hg2p⟩
        rcases (hmem_iff _).mp ⟨g2, hg2, hg2p⟩ with
          ⟨g, hg, _hgid, hgp⟩ | hfp
        · exact (hinv a ha).mpr ⟨g, hg, hgp⟩
        · exact absurd hfp.symm h1

theorem OccCons_edit (db : DB) (gid : Nat) (pid : Option Nat)
    (nm : Option String) (act : Option Bool) (h : OccCons db) :
    OccCons (editBurialRecord db gid pid nm act).db := by
  unfold editBurialRecord
  cases hfind : findGrave db gid with
  | none => exact h
  | some cur =>
    dsimp only
    cases pid with
    | none => exact OccCons_editApply db gid none nm act cur [] hfind h
    | some newPid =>
      dsimp only
      by_cases hmv : cur.plot_id ≠ newPid
      · rw [if_pos hmv]
        cases hfp : findPlot db newPid with
        | none => exact h
        | some lockNew =>
          dsimp only
          by_cases hocc : slower lockNew.status = "occupied"
          · rw [if_pos hocc]
            exact h
          · rw [if_neg hocc]
            exact OccCons_editApply db gid (some newPid) nm act cur
              [newPid, cur.plot_id] hfind h
      · rw [if_neg hmv]
        exact OccCons_editApply db gid (some newPid) nm act cur [] hfind h

theorem BStep_preserves {dbA dbB : DB} (h : OccCons dbA)
    (hs : BStep dbA dbB) : OccCons dbB := by
  cases hs with
  | addA pid nm act => exact OccCons_addA dbA pid nm act h
  | addB pid nm act => exact OccCons_addB dbA pid nm act h
  | edit gid pid nm act => exact OccCons_edit dbA gid pid nm act h
  | del gid => exact OccCons_del dbA gid h
  | confirm bid => exact OccCons_confirm dbA bid h

theorem OccCons_of_BReach {dbA dbB : DB} (h : OccCons dbA)
    (hr : BReach dbA dbB) : OccCons dbB := by
  induction hr with
  | refl => exact h
  | tail _ hstep ih => exact BStep_preserves ih hstep

/-- Counterexample to C1 as stated, in two parts. (i) From a consistent
seeded store (plot 1 available, no graves), one system operation — the
admin createBurialRecord with `is_active = false` — reaches a state where
plot 1 is `occupied` while NO active burial record references it: the
code marks the plot occupied regardless of `is_active`. (ii) Even with
"active" dropped, the biconditional is not an invariant of the FULL
system: cancelling the completed reservation of an occupied plot through
the visitor-controller admin endpoint sets the plot `available` while its
burial record remains. -/
theorem C1_counterexample :
    (activeOccInv dbC1 = true ∧ occInv dbC1 = true ∧
      SysReach dbC1 ((addBurialRecordA dbC1 1 "Maria Clara" false).2) ∧
      activeOccInv ((addBurialRecordA dbC1 1 "Maria Clara" false).2)
        = false ∧
      (∃ p ∈ ((addBurialRecordA dbC1 1 "Maria Clara" false).2).plots,
        p.status = "occupied" ∧
        ¬ ∃ g ∈ ((addBurialRecordA dbC1 1 "Maria Clara" false).2).graves,
          g.plot_id = p.id ∧ g.is_active = true)) ∧
    (occInv dbC1b = true ∧
      SysReach dbC1b ((cancelReservationAsAdminV dbC1b 1).2) ∧
      occInv ((cancelReservationAsAdminV dbC1b 1).2) = false ∧
      activeOccInv ((cancelReservationAsAdminV dbC1b 1).2) = false) := by
  constructor
  · refine ⟨by decide, by decide, ?_, by decide, by decide⟩
    exact Relation.ReflTransGen.single
      (Step.addBurialA dbC1 1 "Maria Clara" false)
  · refine ⟨by decide, ?_, by decide, by decide⟩
    exact Relation.ReflTransGen.single (Step.cancelV dbC1b 1)

/-- Claim C1 (amended): for every state reachable from a consistent store
by the Burial Record Manager's operations (createBurialRecord in both
variants, editBurialRecord, deleteBurialRecord, and burial-request
confirmation), a Plot's status is `occupied` iff at least one Burial
Record — ACTIVE OR NOT — references it: the occupancy checks
(`plotHasAnyGrave` and the occupied-status writes) ignore `is_active`.
(The invariant does not extend to the admin reservation cancel/reject
endpoints, which can set an occupied Plot `available`.) -/
theorem C1_occupied_iff_some_burial_record (db db' : DB)
    (hwf : GraveKeysWF db) (hinv : occInv db = true)
    (hreach : BReach db db') :
    occInv db' = true ∧
    ∀ p ∈ db'.plots,
      (p.status = "occupied" ↔ ∃ g ∈ db'.graves, g.plot_id = p.id) := by
  have h' := OccCons_of_BReach ⟨hwf, (occInv_iff db).mp hinv⟩ hreach
  exact ⟨(occInv_iff db').mpr h'.2, h'.2⟩

/-- Witness for C1 (amended): one burial-record step from the seeded
store keeps the occupied-iff-some-record invariant. -/
theorem C1_occupied_iff_some_burial_record_witness :
    occInv ((addBurialRecordA dbC1 1 "Juan Luna" true).2) = true :=
  (C1_occupied_iff_some_burial_record dbC1 _ ⟨by decide, by decide⟩
    (by decide)
    (Relation.ReflTransGen.single (BStep.addA dbC1 1 "Juan Luna" true))).1
